import Mathlib

/-!
# Verification of the alecc compiler core

A shallow embedding of the alecc compiler (lexer, optimizer skeleton, and
multi-target code generator) together with theorems settling the stated
properties of its specification.

Modelling conventions:
* Rust `i64`/`i32` values are modelled as `Int`, `usize` as `Nat`.
* `f64` payloads are modelled by their source text; no claim interprets them.
* Rust's `String` is modelled by Lean's `String`; the lexer's byte position
  into the input is modelled by the list of remaining characters (the two
  coincide on ASCII input, where byte and character indices agree).
* `HashMap` tables are modelled as association lists with most-recent-first
  lookup, which realises the same key-value map; only the (unspecified)
  iteration order of the string-literal table differs.
* In-place mutation (`&mut self`, `&mut Program`) is modelled by explicit
  state passing; `Result<T>` becomes `Except AleccError`.
* The code generator's output `String` (built line by line, each followed by
  a newline) is modelled as the list of emitted lines.
-/

namespace Alecc

/-! ## Target descriptor (targets.rs) -/

inductive Target where
  | i386
  | amd64
  | arm64
deriving DecidableEq, Repr

def Target.pointer_size : Target → Nat
  | .i386 => 4
  | .amd64 => 8
  | .arm64 => 8

/-! ## Errors (error.rs) -/

inductive AleccError where
  | lexError (line : Nat) (column : Nat) (message : String)
  | parseError (line : Nat) (column : Nat) (message : String)
  | semanticError (message : String)
  | codegenError (message : String)
  | linkerError (message : String)
  | unsupportedTarget (target : String)
  | fileNotFound (path : String)
  | ioError (message : String)
  | invalidArgument (message : String)
  | internalError (message : String)
deriving DecidableEq, Repr

/-- The `Display` rendering of `AleccError`, produced in the source by the
`#[error("...")]` attribute on each variant (the `IoError` payload is
modelled by its own display text). -/
def AleccError.display : AleccError → String
  | .lexError line column message =>
      "Lexical error at line " ++ toString line ++ ", column " ++ toString column ++ ": " ++ message
  | .parseError line column message =>
      "Parse error at line " ++ toString line ++ ", column " ++ toString column ++ ": " ++ message
  | .semanticError message => "Semantic error: " ++ message
  | .codegenError message => "Code generation error: " ++ message
  | .linkerError message => "Linker error: " ++ message
  | .unsupportedTarget target => "Target not supported: " ++ target
  | .fileNotFound path => "File not found: " ++ path
  | .ioError message => "I/O error: " ++ message
  | .invalidArgument message => "Invalid argument: " ++ message
  | .internalError message => "Internal compiler error: " ++ message

/-! ## AST (parser.rs data model) -/

inductive CType where
  | void
  | char
  | short
  | int
  | long
  | float
  | double
  | bool
  | pointer (inner : CType)
  | array (elem : CType) (length : Option Nat)
  | function (return_type : CType) (parameters : List CType) (variadic : Bool)
  | struct_t (name : String) (fields : List (String × CType))
  | union_t (name : String) (fields : List (String × CType))
  | enum_t (name : String) (variants : List (String × Int))
  | typedef (name : String) (aliased : CType)
deriving Repr

inductive BinaryOperator where
  | add | subtract | multiply | divide | modulo
  | equal | notEqual | less | greater | lessEqual | greaterEqual
  | logicalAnd | logicalOr
  | bitwiseAnd | bitwiseOr | bitwiseXor
  | leftShift | rightShift
deriving DecidableEq, Repr

/-- The variant name as printed by Rust's derived `Debug` (used in
"Binary operator {:?} not implemented" messages). -/
def BinaryOperator.debugStr : BinaryOperator → String
  | .add => "Add"
  | .subtract => "Subtract"
  | .multiply => "Multiply"
  | .divide => "Divide"
  | .modulo => "Modulo"
  | .equal => "Equal"
  | .notEqual => "NotEqual"
  | .less => "Less"
  | .greater => "Greater"
  | .lessEqual => "LessEqual"
  | .greaterEqual => "GreaterEqual"
  | .logicalAnd => "LogicalAnd"
  | .logicalOr => "LogicalOr"
  | .bitwiseAnd => "BitwiseAnd"
  | .bitwiseOr => "BitwiseOr"
  | .bitwiseXor => "BitwiseXor"
  | .leftShift => "LeftShift"
  | .rightShift => "RightShift"

inductive UnaryOperator where
  | plus | minus | logicalNot | bitwiseNot
  | preIncrement | postIncrement | preDecrement | postDecrement
  | addressOf | dereference
deriving DecidableEq, Repr

inductive AssignmentOperator where
  | assign
  | plusAssign | minusAssign | multiplyAssign | divideAssign | moduloAssign
  | bitwiseAndAssign | bitwiseOrAssign | bitwiseXorAssign
  | leftShiftAssign | rightShiftAssign
deriving DecidableEq, Repr

inductive Expression where
  | integerLiteral (value : Int)
  | floatLiteral (text : String)
  | stringLiteral (value : String)
  | charLiteral (value : Char)
  | booleanLiteral (value : Bool)
  | identifier (name : String)
  | binary (left : Expression) (operator : BinaryOperator) (right : Expression)
  | unary (operator : UnaryOperator) (operand : Expression)
  | call (function : Expression) (arguments : List Expression)
  | member (object : Expression) (memberName : String) (is_arrow : Bool)
  | index (array : Expression) (idx : Expression)
  | cast (target_type : CType) (expr : Expression)
  | sizeofE (ty : CType)
  | assignment (target : Expression) (operator : AssignmentOperator) (value : Expression)
  | conditional (condition : Expression) (then_expr : Expression) (else_expr : Expression)
deriving Repr

inductive Statement where
  | expression (e : Expression)
  | declaration (name : String) (var_type : CType) (initializer : Option Expression)
  | block (statements : List Statement)
  | ifStmt (condition : Expression) (then_stmt : Statement) (else_stmt : Option Statement)
  | whileStmt (condition : Expression) (body : Statement)
  | forStmt (init : Option Statement) (condition : Option Expression)
      (increment : Option Expression) (body : Statement)
  | doWhileStmt (body : Statement) (condition : Expression)
  | switchStmt (expr : Expression) (cases : List (Option Expression × List Statement))
  | returnStmt (e : Option Expression)
  | breakStmt
  | continueStmt
  | gotoStmt (labelName : String)
  | labelStmt (labelName : String)
deriving Repr

structure CFunction where
  name : String
  return_type : CType
  parameters : List (String × CType)
  body : Statement
  is_inline : Bool
  is_static : Bool
  is_extern_f : Bool
  is_variadic : Bool
deriving Repr

structure Program where
  functions : List CFunction
  global_variables : List (String × CType × Option Expression)
  type_definitions : List (String × CType)
deriving Repr

/-! ## Optimizer (optimizer.rs) -/

inductive OptimizationLevel where
  | none
  | basic
  | moderate
  | aggressive
  | size
  | sizeZ
deriving DecidableEq, Repr

def OptimizationLevel.from_string (s : String) : OptimizationLevel :=
  if s = "0" then .none
  else if s = "1" then .basic
  else if s = "2" then .moderate
  else if s = "3" then .aggressive
  else if s = "s" then .size
  else if s = "z" then .sizeZ
  else .none

namespace Optimizer

/- Every individual pass in the source is a `TODO` stub that returns
`Ok(())` without touching the program; each is modelled as the identity
state transformer on the program. -/

def eliminate_dead_code (program : Program) : Except AleccError Program := .ok program

def fold_constants (program : Program) : Except AleccError Program := .ok program

def basic_strength_reduction (program : Program) : Except AleccError Program := .ok program

def optimize_loops (program : Program) : Except AleccError Program := .ok program

def inline_small_functions (program : Program) : Except AleccError Program := .ok program

def eliminate_common_subexpressions (program : Program) : Except AleccError Program := .ok program

def advanced_loop_optimizations (program : Program) : Except AleccError Program := .ok program

def aggressive_inlining (program : Program) : Except AleccError Program := .ok program

def interprocedural_optimizations (program : Program) : Except AleccError Program := .ok program

def auto_vectorization (program : Program) : Except AleccError Program := .ok program

def optimize_for_size (program : Program) : Except AleccError Program := .ok program

def merge_identical_functions (program : Program) : Except AleccError Program := .ok program

def ultra_size_optimizations (program : Program) : Except AleccError Program := .ok program

def basic_optimizations (program : Program) : Except AleccError Program := do
  let program ← eliminate_dead_code program
  let program ← fold_constants program
  let program ← basic_strength_reduction program
  .ok program

def moderate_optimizations (program : Program) : Except AleccError Program := do
  let program ← optimize_loops program
  let program ← inline_small_functions program
  let program ← eliminate_common_subexpressions program
  .ok program

def aggressive_optimizations (program : Program) : Except AleccError Program := do
  let program ← advanced_loop_optimizations program
  let program ← aggressive_inlining program
  let program ← interprocedural_optimizations program
  let program ← auto_vectorization program
  .ok program

def size_optimizations (program : Program) : Except AleccError Program := do
  let program ← optimize_for_size program
  let program ← merge_identical_functions program
  .ok program

def aggressive_size_optimizations (program : Program) : Except AleccError Program := do
  ultra_size_optimizations program

/-- `Optimizer::optimize`, dispatching on the level. -/
def optimize (level : OptimizationLevel) (program : Program) : Except AleccError Program :=
  match level with
  | .none => .ok program
  | .basic => basic_optimizations program
  | .moderate => do
      let program ← basic_optimizations program
      moderate_optimizations program
  | .aggressive => do
      let program ← basic_optimizations program
      let program ← moderate_optimizations program
      aggressive_optimizations program
  | .size => do
      let program ← basic_optimizations program
      size_optimizations program
  | .sizeZ => do
      let program ← basic_optimizations program
      let program ← size_optimizations program
      aggressive_size_optimizations program

end Optimizer

/-! ## Lexer (lexer.rs) -/

inductive TokenType where
  | integerLiteral (value : Int)
  | floatLiteral (text : String)
  | stringLiteral (value : String)
  | charLiteral (value : Char)
  | identifier (name : String)
  | auto_kw | break_kw | case_kw | char_kw | const_kw | continue_kw | default_kw | do_kw
  | double_kw | else_kw | enum_kw | extern_kw | float_kw | for_kw | goto_kw | if_kw
  | int_kw | long_kw | register_kw | return_kw | short_kw | signed_kw | sizeof_kw | static_kw
  | struct_kw | switch_kw | typedef_kw | union_kw | unsigned_kw | void_kw | volatile_kw | while_kw
  | bool_kw | class_kw | explicit_kw | export_kw | false_kw | friend_kw | inline_kw | mutable_kw
  | namespace_kw | new_kw | operator_kw | private_kw | protected_kw | public_kw | template_kw
  | this_kw | throw_kw | true_kw | try_kw | typename_kw | using_kw | virtual_kw
  | plus | minus | multiply | divide | modulo
  | assign | plusAssign | minusAssign | multiplyAssign | divideAssign | moduloAssign
  | equal | notEqual | less | greater | lessEqual | greaterEqual
  | logicalAnd | logicalOr | logicalNot
  | bitwiseAnd | bitwiseOr | bitwiseXor | bitwiseNot
  | leftShift | rightShift | leftShiftAssign | rightShiftAssign
  | bitwiseAndAssign | bitwiseOrAssign | bitwiseXorAssign
  | increment | decrement
  | arrow | dot | question | colon
  | leftParen | rightParen | leftBrace | rightBrace | leftBracket | rightBracket
  | semicolon | comma
  | hash | hashHash
  | eof
  | newline
deriving Repr

def TokenType.isEof : TokenType → Bool
  | .eof => true
  | _ => false

structure Token where
  token_type : TokenType
  line : Nat
  column : Nat
  length : Nat
deriving Repr

/-- The NUL character, written `'\0'` in the source. -/
def nulChar : Char := Char.ofNat 0

/-- The backslash character. -/
def backslashChar : Char := Char.ofNat 92

/-- The double-quote character. -/
def dquoteChar : Char := Char.ofNat 34

/-- The single-quote character. -/
def squoteChar : Char := Char.ofNat 39

/-- Lexer state: the byte position into the input string is modelled by the
list of characters that remain from that position on. -/
structure Lexer where
  input : List Char
  line : Nat
  column : Nat
deriving Repr

def Lexer.new (input : String) : Lexer := ⟨input.data, 1, 1⟩

def Lexer.current_char (st : Lexer) : Char := st.input.headD nulChar

def Lexer.peek (st : Lexer) : Char := (st.input.drop 1).headD nulChar

/-- `advance`: step one character; at end of input the position counter still
moves in the source, which the remaining-input model renders as a no-op on
the (already empty) remainder. -/
def Lexer.advance_state (st : Lexer) : Lexer := ⟨st.input.tail, st.line, st.column + 1⟩

def Lexer.advance (st : Lexer) : Char × Lexer := (st.current_char, st.advance_state)

def Lexer.match_char (st : Lexer) (expected : Char) : Bool × Lexer :=
  if st.input.isEmpty || st.current_char ≠ expected then (false, st)
  else (true, st.advance_state)

/-- Loop of `skip_whitespace`, structurally consuming the remaining input. -/
def skip_whitespace_go : List Char → Nat → Nat → List Char × Nat × Nat
  | [], line, column => ([], line, column)
  | c :: rest, line, column =>
      if c = ' ' || c = '\r' || c = '\t' then skip_whitespace_go rest line (column + 1)
      else (c :: rest, line, column)

def Lexer.skip_whitespace (st : Lexer) : Lexer :=
  let r := skip_whitespace_go st.input st.line st.column
  ⟨r.1, r.2.1, r.2.2⟩

/-- Loop of `skip_line_comment`. -/
def skip_line_comment_go : List Char → Nat → Nat → List Char × Nat × Nat
  | [], line, column => ([], line, column)
  | c :: rest, line, column =>
      if c = '\n' then (c :: rest, line, column)
      else skip_line_comment_go rest line (column + 1)

/-- Loop of `skip_block_comment`; errors at end of input. -/
def skip_block_comment_go : List Char → Nat → Nat → Except AleccError (List Char × Nat × Nat)
  | [], line, column => .error (.lexError line column "Unterminated block comment")
  | c :: rest, line, column =>
      if c = '*' && rest.headD nulChar = '/' then .ok (rest.tail, line, column + 2)
      else
        let lc := if c = '\n' then (line + 1, 1) else (line, column)
        skip_block_comment_go rest lc.1 (lc.2 + 1)

/-- Escape decoding inside string literals (`\n \t \r \\ \" \0`; any other
escape is the literal second character). -/
def string_escape (c : Char) : Char :=
  if c = 'n' then '\n'
  else if c = 't' then '\t'
  else if c = 'r' then '\r'
  else if c = backslashChar then backslashChar
  else if c = dquoteChar then dquoteChar
  else if c = '0' then nulChar
  else c

/-- Escape decoding inside char literals (`\n \t \r \\ \' \0`). -/
def char_escape (c : Char) : Char :=
  if c = 'n' then '\n'
  else if c = 't' then '\t'
  else if c = 'r' then '\r'
  else if c = backslashChar then backslashChar
  else if c = squoteChar then squoteChar
  else if c = '0' then nulChar
  else c

/-- Loop of `scan_string`: accumulate decoded characters until an unescaped
closing quote or end of input. -/
def scan_string_go : List Char → Nat → Nat → String → (List Char × Nat × Nat) × String
  | [], line, column, value => (([], line, column), value)
  | c :: rest, line, column, value =>
      if c = dquoteChar then ((c :: rest, line, column), value)
      else
        let lc := if c = '\n' then (line + 1, 1) else (line, column)
        if c = backslashChar then
          match rest with
          | [] => scan_string_go [] lc.1 (lc.2 + 1) value
          | c2 :: rest2 => scan_string_go rest2 lc.1 (lc.2 + 2) (value.push (string_escape c2))
        else scan_string_go rest lc.1 (lc.2 + 1) (value.push c)

def Lexer.scan_string (st : Lexer) : Except AleccError (Option TokenType × Lexer) :=
  let r := scan_string_go st.input st.line st.column ""
  let st1 : Lexer := ⟨r.1.1, r.1.2.1, r.1.2.2⟩
  if st1.input.isEmpty then
    .error (.lexError st1.line st1.column "Unterminated string literal")
  else
    .ok (some (.stringLiteral r.2), st1.advance_state)

def Lexer.scan_char (st : Lexer) : Except AleccError (Option TokenType × Lexer) :=
  if st.input.isEmpty then
    .error (.lexError st.line st.column "Unterminated character literal")
  else if st.current_char = backslashChar then
    let st1 := st.advance_state
    if st1.input.isEmpty then
      .error (.lexError st1.line st1.column "Unterminated character literal")
    else
      let c := char_escape st1.current_char
      let st2 := st1.advance_state
      if st2.input.isEmpty || st2.current_char ≠ squoteChar then
        .error (.lexError st2.line st2.column "Unterminated character literal")
      else .ok (some (.charLiteral c), st2.advance_state)
  else
    let c := st.current_char
    let st2 := st.advance_state
    if st2.input.isEmpty || st2.current_char ≠ squoteChar then
      .error (.lexError st2.line st2.column "Unterminated character literal")
    else .ok (some (.charLiteral c), st2.advance_state)

/-- Digit-scanning loop of `scan_number` (the consumed text, sliced from the
input in the source, is accumulated alongside). -/
def scan_digits_go : List Char → Nat → Nat → String → (List Char × Nat × Nat) × String
  | [], line, column, acc => (([], line, column), acc)
  | c :: rest, line, column, acc =>
      if c.isDigit then scan_digits_go rest line (column + 1) (acc.push c)
      else ((c :: rest, line, column), acc)

/-- Numeric value of a digit string, as computed by `str::parse::<i64>` on a
sign-free all-digit slice. -/
def digitsVal (s : List Char) : Nat := s.foldl (fun a c => a * 10 + (c.toNat - 48)) 0

/-- `i64::MAX`; `parse::<i64>` on an all-digit slice fails exactly above it. -/
def i64Max : Nat := 9223372036854775807

def Lexer.scan_number (first : Char) (st : Lexer) : Except AleccError (Option TokenType × Lexer) :=
  let r1 := scan_digits_go st.input st.line st.column (String.singleton first)
  let st1 : Lexer := ⟨r1.1.1, r1.1.2.1, r1.1.2.2⟩
  if !st1.input.isEmpty && st1.current_char = '.' && st1.peek.isDigit then
    let st2 := st1.advance_state
    let r2 := scan_digits_go st2.input st2.line st2.column ""
    let st3 : Lexer := ⟨r2.1.1, r2.1.2.1, r2.1.2.2⟩
    -- a digits `.` digits slice always parses as `f64`; the value is modelled
    -- by its source text
    .ok (some (.floatLiteral (r1.2 ++ "." ++ r2.2)), st3)
  else
    if digitsVal r1.2.data ≤ i64Max then
      .ok (some (.integerLiteral (Int.ofNat (digitsVal r1.2.data))), st1)
    else
      .error (.lexError st1.line st1.column ("Invalid integer literal: " ++ r1.2))

/-- Identifier-scanning loop of `scan_identifier`. -/
def scan_ident_go : List Char → Nat → Nat → String → (List Char × Nat × Nat) × String
  | [], line, column, acc => (([], line, column), acc)
  | c :: rest, line, column, acc =>
      if c.isAlphanum || c = '_' then scan_ident_go rest line (column + 1) (acc.push c)
      else ((c :: rest, line, column), acc)

/-- The keyword table of `scan_identifier`. -/
def keyword_lookup (text : String) : TokenType :=
  if text = "auto" then .auto_kw
  else if text = "break" then .break_kw
  else if text = "case" then .case_kw
  else if text = "char" then .char_kw
  else if text = "const" then .const_kw
  else if text = "continue" then .continue_kw
  else if text = "default" then .default_kw
  else if text = "do" then .do_kw
  else if text = "double" then .double_kw
  else if text = "else" then .else_kw
  else if text = "enum" then .enum_kw
  else if text = "extern" then .extern_kw
  else if text = "float" then .float_kw
  else if text = "for" then .for_kw
  else if text = "goto" then .goto_kw
  else if text = "if" then .if_kw
  else if text = "int" then .int_kw
  else if text = "long" then .long_kw
  else if text = "register" then .register_kw
  else if text = "return" then .return_kw
  else if text = "short" then .short_kw
  else if text = "signed" then .signed_kw
  else if text = "sizeof" then .sizeof_kw
  else if text = "static" then .static_kw
  else if text = "struct" then .struct_kw
  else if text = "switch" then .switch_kw
  else if text = "typedef" then .typedef_kw
  else if text = "union" then .union_kw
  else if text = "unsigned" then .unsigned_kw
  else if text = "void" then .void_kw
  else if text = "volatile" then .volatile_kw
  else if text = "while" then .while_kw
  else if text = "bool" then .bool_kw
  else if text = "class" then .class_kw
  else if text = "explicit" then .explicit_kw
  else if text = "export" then .export_kw
  else if text = "false" then .false_kw
  else if text = "friend" then .friend_kw
  else if text = "inline" then .inline_kw
  else if text = "mutable" then .mutable_kw
  else if text = "namespace" then .namespace_kw
  else if text = "new" then .new_kw
  else if text = "operator" then .operator_kw
  else if text = "private" then .private_kw
  else if text = "protected" then .protected_kw
  else if text = "public" then .public_kw
  else if text = "template" then .template_kw
  else if text = "this" then .this_kw
  else if text = "throw" then .throw_kw
  else if text = "true" then .true_kw
  else if text = "try" then .try_kw
  else if text = "typename" then .typename_kw
  else if text = "using" then .using_kw
  else if text = "virtual" then .virtual_kw
  else .identifier text

def Lexer.scan_identifier (first : Char) (st : Lexer) :
    Except AleccError (Option TokenType × Lexer) :=
  let r := scan_ident_go st.input st.line st.column (String.singleton first)
  .ok (some (keyword_lookup r.2), ⟨r.1.1, r.1.2.1, r.1.2.2⟩)

/-- `scan_token`: consume one character and dispatch. -/
def Lexer.scan_token (st0 : Lexer) : Except AleccError (Option TokenType × Lexer) :=
  let p := st0.advance
  let c := p.1
  let st := p.2
  if c = '+' then
    let m := st.match_char '='
    if m.1 then .ok (some .plusAssign, m.2)
    else
      let m2 := st.match_char '+'
      if m2.1 then .ok (some .increment, m2.2) else .ok (some .plus, m2.2)
  else if c = '-' then
    let m := st.match_char '='
    if m.1 then .ok (some .minusAssign, m.2)
    else
      let m2 := st.match_char '-'
      if m2.1 then .ok (some .decrement, m2.2)
      else
        let m3 := st.match_char '>'
        if m3.1 then .ok (some .arrow, m3.2) else .ok (some .minus, m3.2)
  else if c = '*' then
    let m := st.match_char '='
    if m.1 then .ok (some .multiplyAssign, m.2) else .ok (some .multiply, m.2)
  else if c = '/' then
    let m := st.match_char '='
    if m.1 then .ok (some .divideAssign, m.2)
    else
      let m2 := st.match_char '/'
      if m2.1 then
        let r := skip_line_comment_go m2.2.input m2.2.line m2.2.column
        .ok (none, ⟨r.1, r.2.1, r.2.2⟩)
      else
        let m3 := st.match_char '*'
        if m3.1 then
          match skip_block_comment_go m3.2.input m3.2.line m3.2.column with
          | .error e => .error e
          | .ok r => .ok (none, ⟨r.1, r.2.1, r.2.2⟩)
        else .ok (some .divide, m3.2)
  else if c = '=' then
    let m := st.match_char '='
    if m.1 then .ok (some .equal, m.2) else .ok (some .assign, m.2)
  else if c = '!' then
    let m := st.match_char '='
    if m.1 then .ok (some .notEqual, m.2) else .ok (some .logicalNot, m.2)
  else if c = '<' then
    let m := st.match_char '='
    if m.1 then .ok (some .lessEqual, m.2)
    else
      let m2 := st.match_char '<'
      if m2.1 then
        let m3 := m2.2.match_char '='
        if m3.1 then .ok (some .leftShiftAssign, m3.2) else .ok (some .leftShift, m3.2)
      else .ok (some .less, m2.2)
  else if c = '>' then
    let m := st.match_char '='
    if m.1 then .ok (some .greaterEqual, m.2)
    else
      let m2 := st.match_char '>'
      if m2.1 then
        let m3 := m2.2.match_char '='
        if m3.1 then .ok (some .rightShiftAssign, m3.2) else .ok (some .rightShift, m3.2)
      else .ok (some .greater, m2.2)
  else if c = '&' then
    let m := st.match_char '&'
    if m.1 then .ok (some .logicalAnd, m.2)
    else
      let m2 := st.match_char '='
      if m2.1 then .ok (some .bitwiseAndAssign, m2.2) else .ok (some .bitwiseAnd, m2.2)
  else if c = '|' then
    let m := st.match_char '|'
    if m.1 then .ok (some .logicalOr, m.2)
    else
      let m2 := st.match_char '='
      if m2.1 then .ok (some .bitwiseOrAssign, m2.2) else .ok (some .bitwiseOr, m2.2)
  else if c = '^' then
    let m := st.match_char '='
    if m.1 then .ok (some .bitwiseXorAssign, m.2) else .ok (some .bitwiseXor, m.2)
  else if c = '~' then .ok (some .bitwiseNot, st)
  else if c = '%' then
    let m := st.match_char '='
    if m.1 then .ok (some .moduloAssign, m.2) else .ok (some .modulo, m.2)
  else if c = '(' then .ok (some .leftParen, st)
  else if c = ')' then .ok (some .rightParen, st)
  else if c = '{' then .ok (some .leftBrace, st)
  else if c = '}' then .ok (some .rightBrace, st)
  else if c = '[' then .ok (some .leftBracket, st)
  else if c = ']' then .ok (some .rightBracket, st)
  else if c = ';' then .ok (some .semicolon, st)
  else if c = ',' then .ok (some .comma, st)
  else if c = '.' then .ok (some .dot, st)
  else if c = '?' then .ok (some .question, st)
  else if c = ':' then .ok (some .colon, st)
  else if c = '#' then
    let m := st.match_char '#'
    if m.1 then .ok (some .hashHash, m.2) else .ok (some .hash, m.2)
  else if c = '\n' then .ok (some .newline, ⟨st.input, st.line + 1, 1⟩)
  else if c = dquoteChar then st.scan_string
  else if c = squoteChar then st.scan_char
  else if c.isDigit then st.scan_number c
  else if c.isAlpha || c = '_' then st.scan_identifier c
  else
    .error (.lexError st.line (st.column - 1)
      ("Unexpected character: " ++ String.singleton squoteChar ++ String.singleton c ++
        String.singleton squoteChar))

/-- The `tokenize` loop, with an explicit step budget; `fuel` at least the
number of remaining characters never runs out, because every iteration
consumes at least one character (`tokenize_go_fuel_stable` below). -/
def tokenize_go : Nat → Lexer → List Token → Except AleccError (Lexer × List Token)
  | 0, st, tokens => .ok (st, tokens)
  | fuel + 1, st, tokens =>
    if st.input.isEmpty then .ok (st, tokens)
    else
      let st1 := st.skip_whitespace
      if st1.input.isEmpty then .ok (st1, tokens)
      else
        match st1.scan_token with
        | .error e => .error e
        | .ok (some token_type, st2) =>
            tokenize_go fuel st2
              (tokens ++ [⟨token_type, st1.line, st1.column, st1.input.length - st2.input.length⟩])
        | .ok (none, st2) => tokenize_go fuel st2 tokens

/-- `Lexer::tokenize`: scan all tokens, then append the single EOF sentinel. -/
def Lexer.tokenize (st : Lexer) : Except AleccError (List Token) :=
  match tokenize_go (st.input.length + 1) st [] with
  | .error e => .error e
  | .ok (st', tokens) => .ok (tokens ++ [⟨.eof, st'.line, st'.column, 0⟩])

/-! ## Code generator (codegen.rs) -/

structure CodeGenerator where
  target : Target
  output : List String
  label_counter : Nat
  string_literals : List (String × String)
  current_function_params : List (String × Int)
  epilogue_emitted : Bool
  local_variables : List (String × Int)
  stack_offset : Int
  last_call_stack_cleanup : Nat
deriving Repr

def CodeGenerator.new (target : Target) : CodeGenerator :=
  ⟨target, [], 0, [], [], false, [], 0, 0⟩

def CodeGenerator.emit_line (st : CodeGenerator) (line : String) : CodeGenerator :=
  { st with output := st.output ++ [line] }

/-- Append several lines at once (used to state emission theorems). -/
def CodeGenerator.emit_lines (st : CodeGenerator) (lines : List String) : CodeGenerator :=
  { st with output := st.output ++ lines }

/-- `HashMap::get` on the local-variable table. The table is modelled as a
most-recent-first association list: `insert` prepends and `get` takes the
first hit, which realises the same name-to-offset map. -/
def CodeGenerator.lookup_local (st : CodeGenerator) (name : String) : Option Int :=
  (st.local_variables.find? (fun p => p.1 == name)).map (fun p => p.2)

/-- `current_function_params.iter().find(|(param_name, _)| param_name == name)`. -/
def CodeGenerator.find_param (st : CodeGenerator) (name : String) : Option (String × Int) :=
  st.current_function_params.find? (fun p => p.1 == name)

def CodeGenerator.get_string_literal_label (st : CodeGenerator) (content : String) :
    String × CodeGenerator :=
  match st.string_literals.find? (fun p => p.1 == content) with
  | some p => (p.2, st)
  | none =>
      let label := ".LC" ++ toString st.string_literals.length
      (label, { st with string_literals := st.string_literals ++ [(content, label)] })

def CodeGenerator.new_label (st : CodeGenerator) (pre : String) : String × CodeGenerator :=
  (".L" ++ pre ++ "_" ++ toString st.label_counter,
   { st with label_counter := st.label_counter + 1 })

/-- `str::replace` with a single-character pattern. -/
def replace_char (s : String) (c : Char) (r : String) : String :=
  String.join (s.data.map (fun ch => if ch = c then r else String.singleton ch))

def CodeGenerator.escape_string (s : String) : String :=
  replace_char
    (replace_char
      (replace_char
        (replace_char
          (replace_char s backslashChar
            (String.singleton backslashChar ++ String.singleton backslashChar))
          dquoteChar (String.singleton backslashChar ++ String.singleton dquoteChar))
        '\n' "\\n")
      '\t' "\\t")
    '\r' "\\r"

def CodeGenerator.get_type_size (st : CodeGenerator) : CType → Nat
  | .char => 1
  | .short => 2
  | .int => 4
  | .long => st.target.pointer_size
  | .float => 4
  | .double => 8
  | .pointer _ => st.target.pointer_size
  | _ => st.target.pointer_size

/-- `emit_global_variable` (the source returns `Result` but never errors). -/
def CodeGenerator.emit_global_variable (st : CodeGenerator) (name : String) (var_type : CType) :
    CodeGenerator :=
  let size := st.get_type_size var_type
  let st := st.emit_line (name ++ ":")
  if size = 1 then st.emit_line "    .byte 0"
  else if size = 2 then st.emit_line "    .word 0"
  else if size = 4 then st.emit_line "    .long 0"
  else if size = 8 then st.emit_line "    .quad 0"
  else st.emit_line ("    .zero " ++ toString size)

/- String-literal collection walkers (the source returns `Result` but every
path is `Ok`, so they are modelled as total state transformers). -/

mutual
def collect_string_literals_from_expression (st : CodeGenerator) :
    Expression → CodeGenerator
  | .stringLiteral value => (st.get_string_literal_label value).2
  | .binary left _ right =>
      collect_string_literals_from_expression
        (collect_string_literals_from_expression st left) right
  | .unary _ operand => collect_string_literals_from_expression st operand
  | .call f arguments => collect_exprs (collect_string_literals_from_expression st f) arguments
  | .assignment target _ value =>
      collect_string_literals_from_expression
        (collect_string_literals_from_expression st target) value
  | _ => st

def collect_exprs (st : CodeGenerator) : List Expression → CodeGenerator
  | [] => st
  | a :: rest => collect_exprs (collect_string_literals_from_expression st a) rest
end

mutual
def collect_string_literals_from_statement (st : CodeGenerator) :
    Statement → CodeGenerator
  | .expression e => collect_string_literals_from_expression st e
  | .block statements => collect_stmts st statements
  | .returnStmt e =>
      match e with
      | some e => collect_string_literals_from_expression st e
      | none => st
  | .ifStmt condition then_stmt else_stmt =>
      let st := collect_string_literals_from_expression st condition
      let st := collect_string_literals_from_statement st then_stmt
      match else_stmt with
      | some els => collect_string_literals_from_statement st els
      | none => st
  | .whileStmt condition body =>
      collect_string_literals_from_statement
        (collect_string_literals_from_expression st condition) body
  | .forStmt init condition increment body =>
      let st := match init with
        | some i => collect_string_literals_from_statement st i
        | none => st
      let st := match condition with
        | some e => collect_string_literals_from_expression st e
        | none => st
      let st := match increment with
        | some e => collect_string_literals_from_expression st e
        | none => st
      collect_string_literals_from_statement st body
  | .declaration _ _ initializer =>
      match initializer with
      | some e => collect_string_literals_from_expression st e
      | none => st
  | _ => st

def collect_stmts (st : CodeGenerator) : List Statement → CodeGenerator
  | [] => st
  | s :: rest => collect_stmts (collect_string_literals_from_statement st s) rest
end

def CodeGenerator.emit_header (st : CodeGenerator) : CodeGenerator :=
  let st := match st.target with
    | .i386 => (st.emit_line ".arch i386").emit_line ".intel_syntax noprefix"
    | .amd64 => st.emit_line ".intel_syntax noprefix"
    | .arm64 => st.emit_line ".arch armv8-a"
  st.emit_line ""

/-- `generate_start_function`: the `_start` stub is emitted by one fixed code
path with no dispatch on the target (the source returns `Result` but never
errors). -/
def CodeGenerator.generate_start_function (st : CodeGenerator) : CodeGenerator :=
  let st := st.emit_line ""
  let st := st.emit_line ".globl _start"
  let st := st.emit_line "_start:"
  let st := st.emit_line "    push rbp"
  let st := st.emit_line "    mov rbp, rsp"
  let st := st.emit_line "    sub rsp, 120"
  let st := st.emit_line "    call main"
  let st := st.emit_line "    mov rdi, rax"
  let st := st.emit_line "    mov rax, 60"
  st.emit_line "    syscall"

def CodeGenerator.emit_function_epilogue (st : CodeGenerator) : CodeGenerator :=
  if st.epilogue_emitted then st
  else
    let st := match st.target with
      | .i386 => ((st.emit_line "    mov esp, ebp").emit_line "    pop ebp").emit_line "    ret"
      | .amd64 => ((st.emit_line "    mov rsp, rbp").emit_line "    pop rbp").emit_line "    ret"
      | .arm64 =>
          ((st.emit_line "    mov sp, x29").emit_line "    ldp x29, x30, [sp], #16").emit_line
            "    ret"
    { st with epilogue_emitted := true }

def CodeGenerator.emit_function_epilogue_force (st : CodeGenerator) : CodeGenerator :=
  let st := match st.target with
    | .i386 => ((st.emit_line "    mov esp, ebp").emit_line "    pop ebp").emit_line "    ret"
    | .amd64 => ((st.emit_line "    mov rsp, rbp").emit_line "    pop rbp").emit_line "    ret"
    | .arm64 =>
        ((st.emit_line "    mov sp, x29").emit_line "    ldp x29, x30, [sp], #16").emit_line
          "    ret"
  { st with epilogue_emitted := true }

def param_registers_amd64 : List String := ["rdi", "rsi", "rdx", "rcx", "r8", "r9"]

/-- Parameter-copy loop of the i386 prologue. -/
def prologue_params_i386 : CodeGenerator → List (String × CType) → Nat → CodeGenerator
  | st, [], _ => st
  | st, (name, _) :: rest, i =>
      let param_offset : Int := -(Int.ofNat i + 1) * 4
      let stack_off : Int := 8 + Int.ofNat i * 4
      let st := st.emit_line ("    mov eax, DWORD PTR [ebp + " ++ toString stack_off ++ "]")
      let st := st.emit_line ("    mov DWORD PTR [ebp + " ++ toString param_offset ++ "], eax")
      let st := { st with
        current_function_params := st.current_function_params ++ [(name, param_offset)] }
      prologue_params_i386 st rest (i + 1)

/-- Parameter-copy loop of the amd64 prologue. -/
def prologue_params_amd64 : CodeGenerator → List (String × CType) → Nat → CodeGenerator
  | st, [], _ => st
  | st, (name, _) :: rest, i =>
      let param_offset : Int := -(Int.ofNat i + 1) * 8
      let st :=
        if i < param_registers_amd64.length then
          st.emit_line ("    mov QWORD PTR [rbp + " ++ toString param_offset ++ "], " ++
            param_registers_amd64.getD i "")
        else
          let stack_off : Int := 16 + Int.ofNat (i - param_registers_amd64.length) * 8
          (st.emit_line ("    mov rax, QWORD PTR [rbp + " ++ toString stack_off ++ "]")).emit_line
            ("    mov QWORD PTR [rbp + " ++ toString param_offset ++ "], rax")
      let st := { st with
        current_function_params := st.current_function_params ++ [(name, param_offset)] }
      prologue_params_amd64 st rest (i + 1)

/-- Parameter-copy loop of the arm64 prologue. -/
def prologue_params_arm64 : CodeGenerator → List (String × CType) → Nat → CodeGenerator
  | st, [], _ => st
  | st, (name, _) :: rest, i =>
      let param_offset : Int := -(Int.ofNat i + 1) * 8
      let st :=
        if i < 8 then
          st.emit_line ("    str x" ++ toString i ++ ", [x29, #" ++ toString param_offset ++ "]")
        else
          let stack_off : Int := 16 + Int.ofNat (i - 8) * 8
          (st.emit_line ("    ldr x9, [x29, #" ++ toString stack_off ++ "]")).emit_line
            ("    str x9, [x29, #" ++ toString param_offset ++ "]")
      let st := { st with
        current_function_params := st.current_function_params ++ [(name, param_offset)] }
      prologue_params_arm64 st rest (i + 1)

/-- `emit_function_prologue` (the source returns `Result` but never errors). -/
def CodeGenerator.emit_function_prologue (st : CodeGenerator)
    (parameters : List (String × CType)) : CodeGenerator :=
  match st.target with
  | .i386 =>
      let st := (st.emit_line "    push ebp").emit_line "    mov ebp, esp"
      let stack_space := parameters.length * 4
      let st := if stack_space > 0 then st.emit_line ("    sub esp, " ++ toString stack_space)
                else st
      prologue_params_i386 st parameters 0
  | .amd64 =>
      let st := (st.emit_line "    push rbp").emit_line "    mov rbp, rsp"
      let stack_space := parameters.length * 8
      let min_space := if stack_space = 0 then 8 else stack_space
      let aligned_space := (min_space + 15) / 16 * 16
      let st := st.emit_line ("    sub rsp, " ++ toString aligned_space)
      prologue_params_amd64 st parameters 0
  | .arm64 =>
      let st := (st.emit_line "    stp x29, x30, [sp, #-16]!").emit_line "    mov x29, sp"
      let stack_space := parameters.length * 8
      -- (stack_space + 15) & !15 in the source, i.e. rounded up to a multiple of 16
      let st := if stack_space > 0 then
          st.emit_line ("    sub sp, sp, #" ++ toString ((stack_space + 15) / 16 * 16))
        else st
      prologue_params_arm64 st parameters 0

/-- `load_from_target`: load the current value of a compound-assignment
target (identifier only: local slot, else global symbol). -/
def CodeGenerator.load_from_target (st : CodeGenerator) (target : Expression) :
    Except AleccError CodeGenerator :=
  match target with
  | .identifier name =>
      match st.lookup_local name with
      | some offset =>
          match st.target with
          | .amd64 => .ok (st.emit_line ("    mov rax, QWORD PTR [rbp + " ++ toString offset ++ "]"))
          | .i386 => .ok (st.emit_line ("    mov eax, DWORD PTR [ebp + " ++ toString offset ++ "]"))
          | .arm64 => .ok (st.emit_line ("    ldr x0, [x29, #" ++ toString offset ++ "]"))
      | none =>
          match st.target with
          | .amd64 => .ok (st.emit_line ("    mov rax, QWORD PTR [" ++ name ++ "]"))
          | .i386 => .ok (st.emit_line ("    mov eax, DWORD PTR [" ++ name ++ "]"))
          | .arm64 =>
              .ok (((st.emit_line ("    adrp x1, " ++ name)).emit_line
                ("    add x1, x1, :lo12:" ++ name)).emit_line "    ldr x0, [x1]")
  | _ => .error (.codegenError "Complex assignment targets not supported for compound operators yet")

/-- `store_in_target`: store the accumulator into an assignment target
(identifier only: the local table is probed, then the name is treated as a
global symbol). -/
def CodeGenerator.store_in_target (st : CodeGenerator) (target : Expression) :
    Except AleccError CodeGenerator :=
  match target with
  | .identifier name =>
      match st.lookup_local name with
      | some offset =>
          match st.target with
          | .amd64 => .ok (st.emit_line ("    mov QWORD PTR [rbp + " ++ toString offset ++ "], rax"))
          | .i386 => .ok (st.emit_line ("    mov DWORD PTR [ebp + " ++ toString offset ++ "], eax"))
          | .arm64 => .ok (st.emit_line ("    str x0, [x29, #" ++ toString offset ++ "]"))
      | none =>
          match st.target with
          | .amd64 => .ok (st.emit_line ("    mov QWORD PTR [" ++ name ++ "], rax"))
          | .i386 => .ok (st.emit_line ("    mov DWORD PTR [" ++ name ++ "], eax"))
          | .arm64 =>
              .ok (((st.emit_line ("    adrp x1, " ++ name)).emit_line
                ("    add x1, x1, :lo12:" ++ name)).emit_line "    str x0, [x1]")
  | _ => .error (.codegenError "Complex assignment targets not supported for compound operators yet")

/-- `emit_conditional_jump` (the source returns `Result` but never errors). -/
def CodeGenerator.emit_conditional_jump (st : CodeGenerator) (condition : Bool) (label : String) :
    CodeGenerator :=
  match st.target with
  | .i386 | .amd64 =>
      (st.emit_line "    test eax, eax").emit_line
        ("    " ++ (if condition then "jnz" else "jz") ++ " " ++ label)
  | .arm64 =>
      st.emit_line ("    " ++ (if condition then "cbnz" else "cbz") ++ " x0, " ++ label)

/-- `emit_jump` (the source returns `Result` but never errors). -/
def CodeGenerator.emit_jump (st : CodeGenerator) (label : String) : CodeGenerator :=
  match st.target with
  | .i386 | .amd64 => st.emit_line ("    jmp " ++ label)
  | .arm64 => st.emit_line ("    b " ++ label)

mutual

/-- `generate_expression`. -/
def generate_expression (st : CodeGenerator) : Expression → Except AleccError CodeGenerator
  | .integerLiteral value =>
      match st.target with
      | .i386 => .ok (st.emit_line ("    mov eax, " ++ toString value))
      | .amd64 => .ok (st.emit_line ("    mov rax, " ++ toString value))
      | .arm64 => .ok (st.emit_line ("    mov x0, #" ++ toString value))
  | .stringLiteral value =>
      let r := st.get_string_literal_label value
      let label := r.1
      let st := r.2
      match st.target with
      | .i386 => .ok (st.emit_line ("    mov eax, OFFSET " ++ label))
      | .amd64 => .ok (st.emit_line ("    lea rax, [" ++ label ++ "]"))
      | .arm64 =>
          .ok ((st.emit_line ("    adrp x0, " ++ label)).emit_line
            ("    add x0, x0, :lo12:" ++ label))
  | .identifier name =>
      match st.find_param name with
      | some p =>
          match st.target with
          | .i386 => .ok (st.emit_line ("    mov eax, DWORD PTR [ebp + " ++ toString p.2 ++ "]"))
          | .amd64 => .ok (st.emit_line ("    mov rax, QWORD PTR [rbp + " ++ toString p.2 ++ "]"))
          | .arm64 => .ok (st.emit_line ("    ldr x0, [x29, #" ++ toString p.2 ++ "]"))
      | none =>
          match st.lookup_local name with
          | some offset =>
              match st.target with
              | .i386 =>
                  .ok (st.emit_line ("    mov eax, DWORD PTR [ebp + " ++ toString offset ++ "]"))
              | .amd64 =>
                  .ok (st.emit_line ("    mov rax, QWORD PTR [rbp + " ++ toString offset ++ "]"))
              | .arm64 => .ok (st.emit_line ("    ldr x0, [x29, #" ++ toString offset ++ "]"))
          | none =>
              match st.target with
              | .i386 => .ok (st.emit_line ("    mov eax, DWORD PTR [" ++ name ++ "]"))
              | .amd64 => .ok (st.emit_line ("    mov rax, QWORD PTR [" ++ name ++ "]"))
              | .arm64 =>
                  .ok (((st.emit_line ("    adrp x1, " ++ name)).emit_line
                    ("    add x1, x1, :lo12:" ++ name)).emit_line "    ldr x0, [x1]")
  | .call f arguments => do
      let st ← match st.target with
        | .i386 =>
            -- i386: push arguments in reverse order
            gen_args_rev_i386 st arguments
        | .amd64 => do
            -- x86_64: first 6 args in registers, rest on stack
            let stack_args :=
              if arguments.length > param_registers_amd64.length then
                arguments.length - param_registers_amd64.length
              else 0
            let r :=
              if stack_args > 0 then
                let total_stack_bytes := stack_args * 8
                -- extra 8-byte pad when an odd number of 8-byte words is pushed
                if (total_stack_bytes / 8) % 2 ≠ 0 then
                  (st.emit_line "    sub rsp, 8  # Stack alignment", 8 + stack_args * 8)
                else (st, stack_args * 8)
              else (st, 0)
            let st := r.1
            -- stack arguments (indices ≥ 6) in reverse order
            let st ← gen_stack_args_amd64 st arguments 0
            -- register arguments (indices < 6) in reverse order
            let st ← gen_reg_args_amd64 st arguments 0
            .ok { st with last_call_stack_cleanup := r.2 }
        | .arm64 => do
            -- ARM64: first 8 args in x0-x7, rest on stack
            let st ← gen_stack_args_arm64 st arguments 0
            gen_reg_args_arm64 st arguments 0
      let st ← match f with
        | .identifier func_name => .ok (st.emit_line ("    call " ++ func_name))
        | _ => .error (.codegenError "Indirect function calls not implemented")
      match st.target with
      | .i386 =>
          let stack_cleanup := arguments.length * 4
          .ok (if stack_cleanup > 0 then st.emit_line ("    add esp, " ++ toString stack_cleanup)
               else st)
      | .amd64 =>
          .ok (if st.last_call_stack_cleanup > 0 then
                 st.emit_line ("    add rsp, " ++ toString st.last_call_stack_cleanup)
               else st)
      | .arm64 =>
          let stack_args := if arguments.length > 8 then arguments.length - 8 else 0
          .ok (if stack_args > 0 then
                 st.emit_line ("    add sp, sp, #" ++ toString (stack_args * 16))
               else st)
  | .binary left operator right => do
      -- right operand first, saved on the stack
      let st ← generate_expression st right
      let st := match st.target with
        | .i386 => st.emit_line "    push eax"
        | .amd64 => st.emit_line "    push rax"
        | .arm64 => st.emit_line "    str x0, [sp, #-16]!"
      let st ← generate_expression st left
      match st.target with
      | .i386 =>
          let st := st.emit_line "    pop ebx"
          match operator with
          | .add => .ok (st.emit_line "    add eax, ebx")
          | .subtract => .ok (st.emit_line "    sub eax, ebx")
          | .multiply => .ok (st.emit_line "    imul eax, ebx")
          | .divide => .ok ((st.emit_line "    cdq").emit_line "    idiv ebx")
          | .modulo =>
              .ok (((st.emit_line "    cdq").emit_line "    idiv ebx").emit_line
                "    mov eax, edx")
          | _ =>
              .error (.codegenError
                ("Binary operator " ++ operator.debugStr ++ " not implemented for i386"))
      | .amd64 =>
          let st := st.emit_line "    pop rbx"
          match operator with
          | .add => .ok (st.emit_line "    add rax, rbx")
          | .subtract => .ok (st.emit_line "    sub rax, rbx")
          | .multiply => .ok (st.emit_line "    imul rax, rbx")
          | .divide => .ok ((st.emit_line "    cqo").emit_line "    idiv rbx")
          | .modulo =>
              .ok (((st.emit_line "    cqo").emit_line "    idiv rbx").emit_line
                "    mov rax, rdx")
          | .equal =>
              .ok (((st.emit_line "    cmp rax, rbx").emit_line "    sete al").emit_line
                "    movzx rax, al")
          | .notEqual =>
              .ok (((st.emit_line "    cmp rax, rbx").emit_line "    setne al").emit_line
                "    movzx rax, al")
          | .less =>
              .ok (((st.emit_line "    cmp rax, rbx").emit_line "    setl al").emit_line
                "    movzx rax, al")
          | .greater =>
              .ok (((st.emit_line "    cmp rax, rbx").emit_line "    setg al").emit_line
                "    movzx rax, al")
          | .lessEqual =>
              .ok (((st.emit_line "    cmp rax, rbx").emit_line "    setle al").emit_line
                "    movzx rax, al")
          | .greaterEqual =>
              .ok (((st.emit_line "    cmp rax, rbx").emit_line "    setge al").emit_line
                "    movzx rax, al")
          | .logicalAnd =>
              .ok ((((((st.emit_line "    test rax, rax").emit_line "    setne al").emit_line
                "    test rbx, rbx").emit_line "    setne bl").emit_line
                "    and al, bl").emit_line "    movzx rax, al")
          | .logicalOr =>
              .ok ((((((st.emit_line "    test rax, rax").emit_line "    setne al").emit_line
                "    test rbx, rbx").emit_line "    setne bl").emit_line
                "    or al, bl").emit_line "    movzx rax, al")
          | .bitwiseAnd => .ok (st.emit_line "    and rax, rbx")
          | .bitwiseOr => .ok (st.emit_line "    or rax, rbx")
          | .bitwiseXor => .ok (st.emit_line "    xor rax, rbx")
          | .leftShift => .ok ((st.emit_line "    mov rcx, rbx").emit_line "    shl rax, cl")
          | .rightShift => .ok ((st.emit_line "    mov rcx, rbx").emit_line "    sar rax, cl")
      | .arm64 =>
          let st := st.emit_line "    ldr x1, [sp], #16"
          match operator with
          | .add => .ok (st.emit_line "    add x0, x0, x1")
          | .subtract => .ok (st.emit_line "    sub x0, x0, x1")
          | .multiply => .ok (st.emit_line "    mul x0, x0, x1")
          | .divide => .ok (st.emit_line "    sdiv x0, x0, x1")
          | .modulo =>
              .ok ((st.emit_line "    sdiv x2, x0, x1").emit_line "    msub x0, x2, x1, x0")
          | _ =>
              .error (.codegenError
                ("Binary operator " ++ operator.debugStr ++ " not implemented for arm64"))
  | .unary operator operand =>
      match operator with
      | .minus => do
          let st ← generate_expression st operand
          match st.target with
          | .i386 => .ok (st.emit_line "    neg eax")
          | .amd64 => .ok (st.emit_line "    neg rax")
          | .arm64 => .ok (st.emit_line "    neg x0, x0")
      | .plus => generate_expression st operand
      | .logicalNot => do
          let st ← generate_expression st operand
          match st.target with
          | .i386 =>
              .ok (((st.emit_line "    test eax, eax").emit_line "    setz al").emit_line
                "    movzx eax, al")
          | .amd64 =>
              .ok (((st.emit_line "    test rax, rax").emit_line "    setz al").emit_line
                "    movzx rax, al")
          | .arm64 => .ok ((st.emit_line "    cmp x0, #0").emit_line "    cset x0, eq")
      | .bitwiseNot => do
          let st ← generate_expression st operand
          match st.target with
          | .i386 => .ok (st.emit_line "    not eax")
          | .amd64 => .ok (st.emit_line "    not rax")
          | .arm64 => .ok (st.emit_line "    mvn x0, x0")
      | .preIncrement =>
          match operand with
          | .identifier name =>
              match st.lookup_local name with
              | some offset =>
                  match st.target with
                  | .i386 =>
                      .ok ((st.emit_line ("    inc DWORD PTR [ebp + " ++ toString offset ++
                        "]")).emit_line ("    mov eax, DWORD PTR [ebp + " ++ toString offset ++ "]"))
                  | .amd64 =>
                      .ok ((st.emit_line ("    inc QWORD PTR [rbp + " ++ toString offset ++
                        "]")).emit_line ("    mov rax, QWORD PTR [rbp + " ++ toString offset ++ "]"))
                  | .arm64 =>
                      .ok (((st.emit_line ("    ldr x0, [x29, #" ++ toString offset ++
                        "]")).emit_line "    add x0, x0, #1").emit_line
                        ("    str x0, [x29, #" ++ toString offset ++ "]"))
              | none => .error (.codegenError ("Undefined variable: " ++ name))
          | _ => .error (.codegenError "Pre-increment can only be applied to variables")
      | .postIncrement =>
          match operand with
          | .identifier name =>
              match st.lookup_local name with
              | some offset =>
                  match st.target with
                  | .i386 =>
                      .ok ((st.emit_line ("    mov eax, DWORD PTR [ebp + " ++ toString offset ++
                        "]")).emit_line ("    inc DWORD PTR [ebp + " ++ toString offset ++ "]"))
                  | .amd64 =>
                      .ok ((st.emit_line ("    mov rax, QWORD PTR [rbp + " ++ toString offset ++
                        "]")).emit_line ("    inc QWORD PTR [rbp + " ++ toString offset ++ "]"))
                  | .arm64 =>
                      .ok ((((st.emit_line ("    ldr x0, [x29, #" ++ toString offset ++
                        "]")).emit_line ("    ldr x1, [x29, #" ++ toString offset ++
                        "]")).emit_line "    add x1, x1, #1").emit_line
                        ("    str x1, [x29, #" ++ toString offset ++ "]"))
              | none => .error (.codegenError ("Undefined variable: " ++ name))
          | _ => .error (.codegenError "Post-increment can only be applied to variables")
      | .preDecrement =>
          match operand with
          | .identifier name =>
              match st.lookup_local name with
              | some offset =>
                  match st.target with
                  | .i386 =>
                      .ok ((st.emit_line ("    dec DWORD PTR [ebp + " ++ toString offset ++
                        "]")).emit_line ("    mov eax, DWORD PTR [ebp + " ++ toString offset ++ "]"))
                  | .amd64 =>
                      .ok ((st.emit_line ("    dec QWORD PTR [rbp + " ++ toString offset ++
                        "]")).emit_line ("    mov rax, QWORD PTR [rbp + " ++ toString offset ++ "]"))
                  | .arm64 =>
                      .ok (((st.emit_line ("    ldr x0, [x29, #" ++ toString offset ++
                        "]")).emit_line "    sub x0, x0, #1").emit_line
                        ("    str x0, [x29, #" ++ toString offset ++ "]"))
              | none => .error (.codegenError ("Undefined variable: " ++ name))
          | _ => .error (.codegenError "Pre-decrement can only be applied to variables")
      | .postDecrement =>
          match operand with
          | .identifier name =>
              match st.lookup_local name with
              | some offset =>
                  match st.target with
                  | .i386 =>
                      .ok ((st.emit_line ("    mov eax, DWORD PTR [ebp + " ++ toString offset ++
                        "]")).emit_line ("    dec DWORD PTR [ebp + " ++ toString offset ++ "]"))
                  | .amd64 =>
                      .ok ((st.emit_line ("    mov rax, QWORD PTR [rbp + " ++ toString offset ++
                        "]")).emit_line ("    dec QWORD PTR [rbp + " ++ toString offset ++ "]"))
                  | .arm64 =>
                      .ok ((((st.emit_line ("    ldr x0, [x29, #" ++ toString offset ++
                        "]")).emit_line ("    ldr x1, [x29, #" ++ toString offset ++
                        "]")).emit_line "    sub x1, x1, #1").emit_line
                        ("    str x1, [x29, #" ++ toString offset ++ "]"))
              | none => .error (.codegenError ("Undefined variable: " ++ name))
          | _ => .error (.codegenError "Post-decrement can only be applied to variables")
      | .addressOf =>
          match operand with
          | .identifier name =>
              match st.lookup_local name with
              | some offset =>
                  match st.target with
                  | .i386 => .ok (st.emit_line ("    lea eax, [ebp + " ++ toString offset ++ "]"))
                  | .amd64 => .ok (st.emit_line ("    lea rax, [rbp + " ++ toString offset ++ "]"))
                  | .arm64 => .ok (st.emit_line ("    add x0, x29, #" ++ toString offset))
              | none => .error (.codegenError ("Undefined variable: " ++ name))
          | _ => .error (.codegenError "Address-of can only be applied to variables")
      | .dereference => do
          let st ← generate_expression st operand
          match st.target with
          | .i386 => .ok (st.emit_line "    mov eax, DWORD PTR [eax]")
          | .amd64 => .ok (st.emit_line "    mov rax, QWORD PTR [rax]")
          | .arm64 => .ok (st.emit_line "    ldr x0, [x0]")
  | .index array idx =>
      match array with
      | .identifier array_name =>
          match st.lookup_local array_name with
          | some base_offset => do
              let st ← generate_expression st idx
              match st.target with
              | .amd64 =>
                  .ok ((((st.emit_line "    imul rax, 8").emit_line
                    ("    lea rbx, [rbp + " ++ toString base_offset ++ "]")).emit_line
                    "    add rax, rbx").emit_line "    mov rax, QWORD PTR [rax]")
              | .i386 =>
                  .ok ((((st.emit_line "    imul eax, 4").emit_line
                    ("    lea ebx, [ebp + " ++ toString base_offset ++ "]")).emit_line
                    "    add eax, ebx").emit_line "    mov eax, DWORD PTR [eax]")
              | .arm64 =>
                  .ok ((((st.emit_line "    lsl x0, x0, #3").emit_line
                    ("    add x1, x29, #" ++ toString base_offset)).emit_line
                    "    add x0, x0, x1").emit_line "    ldr x0, [x0]")
          | none => .error (.codegenError ("Array '" ++ array_name ++ "' not found"))
      | _ => .error (.codegenError "Complex array expressions not yet supported")
  | .assignment target operator value =>
      match operator with
      | .assign => do
          let st ← generate_expression st value
          st.store_in_target target
      | .plusAssign => do
          let st ← st.load_from_target target
          let st := st.emit_line "    push rax"
          let st ← generate_expression st value
          let st := (st.emit_line "    pop rbx").emit_line "    add rax, rbx"
          st.store_in_target target
      | .minusAssign => do
          let st ← st.load_from_target target
          let st := st.emit_line "    push rax"
          let st ← generate_expression st value
          let st := ((st.emit_line "    mov rbx, rax").emit_line "    pop rax").emit_line
            "    sub rax, rbx"
          st.store_in_target target
      | .multiplyAssign => do
          let st ← st.load_from_target target
          let st := st.emit_line "    push rax"
          let st ← generate_expression st value
          let st := (st.emit_line "    pop rbx").emit_line "    imul rax, rbx"
          st.store_in_target target
      | .divideAssign => do
          let st ← st.load_from_target target
          let st := st.emit_line "    push rax"
          let st ← generate_expression st value
          let st := (((st.emit_line "    mov rbx, rax").emit_line "    pop rax").emit_line
            "    cqo").emit_line "    idiv rbx"
          st.store_in_target target
      | _ => .error (.codegenError "Assignment operator not implemented")
  | _ => .error (.codegenError "Expression type not implemented")

/-- i386 call arguments: `for arg in arguments.iter().rev()`, realised as a
right fold so that later arguments are generated and pushed first. -/
def gen_args_rev_i386 : CodeGenerator → List Expression → Except AleccError CodeGenerator
  | st, [] => .ok st
  | st, a :: rest => do
      let st ← gen_args_rev_i386 st rest
      let st ← generate_expression st a
      .ok (st.emit_line "    push eax")

/-- amd64 stack arguments: `arguments.iter().skip(6).rev()`, realised as a
right fold with the position index carried along (entries with index < 6 are
skipped). -/
def gen_stack_args_amd64 : CodeGenerator → List Expression → Nat → Except AleccError CodeGenerator
  | st, [], _ => .ok st
  | st, a :: rest, i => do
      let st ← gen_stack_args_amd64 st rest (i + 1)
      if i ≥ param_registers_amd64.length then do
        let st ← generate_expression st a
        .ok (st.emit_line "    push rax")
      else .ok st

/-- amd64 register arguments: `arguments.iter().take(6).enumerate().rev()`,
realised as a right fold with the position index carried along. -/
def gen_reg_args_amd64 : CodeGenerator → List Expression → Nat → Except AleccError CodeGenerator
  | st, [], _ => .ok st
  | st, a :: rest, i => do
      let st ← gen_reg_args_amd64 st rest (i + 1)
      if i < param_registers_amd64.length then do
        let st ← generate_expression st a
        .ok (st.emit_line ("    mov " ++ param_registers_amd64.getD i "" ++ ", rax"))
      else .ok st

/-- arm64 stack arguments: `arguments.iter().skip(8).rev()`. -/
def gen_stack_args_arm64 : CodeGenerator → List Expression → Nat → Except AleccError CodeGenerator
  | st, [], _ => .ok st
  | st, a :: rest, i => do
      let st ← gen_stack_args_arm64 st rest (i + 1)
      if i ≥ 8 then do
        let st ← generate_expression st a
        .ok (st.emit_line "    str x0, [sp, #-16]!")
      else .ok st

/-- arm64 register arguments: `arguments.iter().take(8).enumerate().rev()`
(the value is moved out of `x0` only for indices above zero). -/
def gen_reg_args_arm64 : CodeGenerator → List Expression → Nat → Except AleccError CodeGenerator
  | st, [], _ => .ok st
  | st, a :: rest, i => do
      let st ← gen_reg_args_arm64 st rest (i + 1)
      if i < 8 then do
        let st ← generate_expression st a
        if i > 0 then .ok (st.emit_line ("    mov x" ++ toString i ++ ", x0"))
        else .ok st
      else .ok st

end

mutual

/-- `generate_statement`. -/
def generate_statement (st : CodeGenerator) : Statement → Except AleccError CodeGenerator
  | .expression expr => generate_expression st expr
  | .declaration name var_type initializer => do
      let size : Nat :=
        match var_type with
        | .array _ (some length) => length * 8
        | .array _ none => 80
        | _ => 8
      let st := { st with stack_offset := st.stack_offset - Int.ofNat size }
      let var_offset := st.stack_offset
      let st := { st with local_variables := (name, var_offset) :: st.local_variables }
      match initializer with
      | some init_expr => do
          let st ← generate_expression st init_expr
          match st.target with
          | .amd64 =>
              .ok (st.emit_line ("    mov QWORD PTR [rbp + " ++ toString var_offset ++ "], rax"))
          | .i386 =>
              .ok (st.emit_line ("    mov DWORD PTR [ebp + " ++ toString var_offset ++ "], eax"))
          | .arm64 => .ok (st.emit_line ("    str x0, [x29, #" ++ toString var_offset ++ "]"))
      | none => .ok st
  | .returnStmt e => do
      let st ← match e with
        | some expr => generate_expression st expr
        | none => .ok st
      .ok st.emit_function_epilogue_force
  | .block statements => generate_statements st statements
  | .ifStmt condition then_stmt else_stmt => do
      let r1 := st.new_label "else"
      let st := r1.2
      let r2 := st.new_label "endif"
      let st := r2.2
      let st ← generate_expression st condition
      let st := st.emit_conditional_jump false r1.1
      let st ← generate_statement st then_stmt
      let st := st.emit_jump r2.1
      let st := st.emit_line (r1.1 ++ ":")
      let st ← match else_stmt with
        | some els => do
            let saved := st.epilogue_emitted
            let st ← generate_statement { st with epilogue_emitted := false } els
            if !st.epilogue_emitted then .ok { st with epilogue_emitted := saved }
            else .ok st
        | none => .ok st
      .ok (st.emit_line (r2.1 ++ ":"))
  | .whileStmt condition body => do
      let r1 := st.new_label "loop"
      let st := r1.2
      let r2 := st.new_label "endloop"
      let st := r2.2
      let st := st.emit_line (r1.1 ++ ":")
      let st ← generate_expression st condition
      let st := st.emit_conditional_jump false r2.1
      let st ← generate_statement st body
      let st := st.emit_jump r1.1
      .ok (st.emit_line (r2.1 ++ ":"))
  | .forStmt init condition increment body => do
      let st ← match init with
        | some i => generate_statement st i
        | none => .ok st
      let r1 := st.new_label "forloop"
      let st := r1.2
      let r2 := st.new_label "endfor"
      let st := r2.2
      let st := st.emit_line (r1.1 ++ ":")
      let st ← match condition with
        | some cond => do
            let st ← generate_expression st cond
            .ok (st.emit_conditional_jump false r2.1)
        | none => .ok st
      let st ← generate_statement st body
      let st ← match increment with
        | some inc => generate_expression st inc
        | none => .ok st
      let st := st.emit_jump r1.1
      .ok (st.emit_line (r2.1 ++ ":"))
  | _ => .error (.codegenError "Statement type not implemented")

def generate_statements (st : CodeGenerator) : List Statement → Except AleccError CodeGenerator
  | [] => .ok st
  | s :: rest => do
      let st ← generate_statement st s
      generate_statements st rest

end

/-- `Statement::Block(statements) if statements.is_empty()` guard of
`generate_function`. -/
def is_empty_block : Statement → Bool
  | .block statements => statements.isEmpty
  | _ => false

/-- `generate_function`. -/
def generate_function (st : CodeGenerator) (function : CFunction) :
    Except AleccError CodeGenerator :=
  if is_empty_block function.body then
    -- forward declaration: only an external reference is emitted
    .ok (st.emit_line (".extern " ++ function.name))
  else do
    let st := st.emit_line (".globl " ++ function.name)
    let st := st.emit_line (function.name ++ ":")
    let st := { st with
      current_function_params := [],
      local_variables := [],
      stack_offset := -Int.ofNat (function.parameters.length * 8),
      epilogue_emitted := false }
    let st := st.emit_function_prologue function.parameters
    let st ← generate_statement st function.body
    let st := st.emit_function_epilogue
    .ok (st.emit_line "")

def generate_functions (st : CodeGenerator) : List CFunction → Except AleccError CodeGenerator
  | [] => .ok st
  | f :: rest => do
      let st ← generate_function st f
      generate_functions st rest

/-- First pass of `generate`: collect string literals from every function
body. -/
def collect_program (st : CodeGenerator) : List CFunction → CodeGenerator
  | [] => st
  | f :: rest => collect_program (collect_string_literals_from_statement st f.body) rest

/-- `.rodata` emission loop of `generate` (the iteration order of the
source's `HashMap` is unspecified; the insertion order is used here). -/
def emit_rodata_entries (st : CodeGenerator) : List (String × String) → CodeGenerator
  | [] => st
  | (content, label) :: rest =>
      emit_rodata_entries
        ((st.emit_line (label ++ ":")).emit_line
          ("    .string " ++ String.singleton dquoteChar ++
            CodeGenerator.escape_string content ++ String.singleton dquoteChar))
        rest

/-- `.data` emission loop of `generate` (initializers are ignored). -/
def emit_globals (st : CodeGenerator) :
    List (String × CType × Option Expression) → CodeGenerator
  | [] => st
  | (name, var_type, _) :: rest => emit_globals (st.emit_global_variable name var_type) rest

/-- `CodeGenerator::generate`: collect literals, emit header, `.rodata`,
`.data`, `.text` with all functions, then the `_start` stub, and return the
output (modelled as the list of emitted lines). -/
def CodeGenerator.generate (st : CodeGenerator) (program : Program) :
    Except AleccError (List String) := do
  let st := collect_program st program.functions
  let st := st.emit_header
  let st :=
    if st.string_literals.isEmpty then st
    else (emit_rodata_entries (st.emit_line ".section .rodata") st.string_literals).emit_line ""
  let st :=
    if program.global_variables.isEmpty then st
    else (emit_globals (st.emit_line ".section .data") program.global_variables).emit_line ""
  let st := st.emit_line ".section .text"
  let st ← generate_functions st program.functions
  let st := st.generate_start_function
  .ok st.output

/-! ## Stack-pointer model over emitted amd64 text

The System V alignment discipline is checked directly on the emitted lines:
`d` counts the bytes the stack has grown since function entry (where
`rsp ≡ 8 (mod 16)`, the return address having just been pushed), so the
stack is 16-byte aligned at a `call` exactly when `d ≡ 8 (mod 16)`. -/

/-- Prefix test on strings, by character list (scrutinising the pattern
first). -/
def listPrefix : List Char → List Char → Bool
  | [], _ => true
  | p :: ps, l =>
    match l with
    | [] => false
    | c :: cs => p == c && listPrefix ps cs

def strStarts (s p : String) : Bool := listPrefix p.data s.data

def strEq (a b : String) : Bool := a.data == b.data

/-- The numeric operand of a `sub rsp, N` / `add rsp, N` line (digits right
after the given instruction stem; a trailing comment is ignored). -/
def line_amount (l : String) (pre : String) : Nat :=
  digitsVal ((l.data.drop pre.data.length).takeWhile Char.isDigit)

/-- One instruction's effect on the bytes-below-entry counter `d`: `push`
grows the stack by 8, `pop` shrinks it by 8, `sub rsp, N` / `add rsp, N`
grow/shrink by `N`, `mov rsp, rbp` restores the value right after the
prologue's `push rbp` (`d = 8`), `ret` pops the return address; every other
line leaves the stack pointer alone. -/
def rsp_delta_step (d : Int) (l : String) : Int :=
  if strStarts l "    sub rsp, " then d + Int.ofNat (line_amount l "    sub rsp, ")
  else if strStarts l "    add rsp, " then d - Int.ofNat (line_amount l "    add rsp, ")
  else if strEq l "    mov rsp, rbp" then 8
  else if strEq l "    ret" then d - 8
  else if strStarts l "    push " then d + 8
  else if strStarts l "    pop " then d - 8
  else d

/-- A `call` leaves `d` unchanged across the call (the callee pops the
return address on its `ret`); other lines step by `rsp_delta_step`. -/
def call_transfer_step (d : Int) (l : String) : Int :=
  if strStarts l "    call " then d else rsp_delta_step d l

/-- Fold `call_transfer_step` over a line list. -/
def delta_fold : Int → List String → Int
  | d, [] => d
  | d, l :: ls => delta_fold (call_transfer_step d l) ls

/-- Scan a function's emitted lines from entry offset `d` and check that
every `call` happens with the stack 16-byte aligned (`d ≡ 8 (mod 16)`). -/
def calls_aligned : Int → List String → Bool
  | _, [] => true
  | d, l :: rest =>
      if strStarts l "    call " then (d % 16 == 8) && calls_aligned d rest
      else calls_aligned (rsp_delta_step d l) rest

/-! ## Expected-emission descriptions used in the theorem statements -/

/-- A call of `f` with `n` identical integer-literal arguments. -/
def call_lit (n : Nat) (v : Int) : Expression :=
  .call (.identifier "f") (List.replicate n (.integerLiteral v))

/-- The amd64 lowering of an integer literal. -/
def lit_line (v : Int) : String := "    mov rax, " ++ toString v

/-- Stack-argument pushes emitted for `m` integer-literal arguments whose
position indices start at `i` (only indices ≥ 6 push, latest first). -/
def stack_lines_from (v : Int) : Nat → Nat → List String
  | 0, _ => []
  | m + 1, i =>
      stack_lines_from v m (i + 1) ++ (if i ≥ 6 then [lit_line v, "    push rax"] else [])

/-- Register-argument moves emitted for `m` integer-literal arguments whose
position indices start at `i` (only indices < 6 load a register, latest
first). -/
def reg_lines_from (v : Int) : Nat → Nat → List String
  | 0, _ => []
  | m + 1, i =>
      reg_lines_from v m (i + 1) ++
        (if i < 6 then [lit_line v, "    mov " ++ param_registers_amd64.getD i "" ++ ", rax"]
         else [])

/-- Number of pushes in `stack_lines_from v m i` (indices ≥ 6 among
`i, …, i+m-1`). -/
def push_count : Nat → Nat → Nat
  | 0, _ => 0
  | m + 1, i => push_count m (i + 1) + (if i ≥ 6 then 1 else 0)

/-- Arguments passed on the stack for an `n`-argument amd64 call. -/
def stack_arg_count (n : Nat) : Nat := if n > 6 then n - 6 else 0

/-- Whether the emitter inserts the extra 8-byte alignment pad (an odd
number of pushed 8-byte words). -/
def pad_needed (n : Nat) : Bool :=
  stack_arg_count n > 0 && (stack_arg_count n * 8 / 8) % 2 ≠ 0

/-- The post-call stack cleanup recorded for an `n`-argument amd64 call. -/
def cleanup_amount (n : Nat) : Nat :=
  if stack_arg_count n > 0 then
    if (stack_arg_count n * 8 / 8) % 2 ≠ 0 then 8 + stack_arg_count n * 8
    else stack_arg_count n * 8
  else 0

/-- The full amd64 emission for `call_lit n v`. -/
def call_lit_lines (n : Nat) (v : Int) : List String :=
  (if pad_needed n then ["    sub rsp, 8  # Stack alignment"] else []) ++
  stack_lines_from v n 0 ++ reg_lines_from v n 0 ++ ["    call f"] ++
  (if cleanup_amount n > 0 then ["    add rsp, " ++ toString (cleanup_amount n)] else [])

/-- The `_start` stub emitted after the last function: one fixed amd64
Intel-syntax sequence, whatever the selected target. -/
def start_stub_lines : List String :=
  ["", ".globl _start", "_start:", "    push rbp", "    mov rbp, rsp", "    sub rsp, 120",
   "    call main", "    mov rdi, rax", "    mov rax, 60", "    syscall"]

/-- Address computation and load emitted for `base[idx]` once the index
value is in the accumulator: the scale factor is 8 on amd64 and arm64 but 4
on i386. -/
def index_lines : Target → Int → List String
  | .amd64, off =>
      ["    imul rax, 8", "    lea rbx, [rbp + " ++ toString off ++ "]", "    add rax, rbx",
       "    mov rax, QWORD PTR [rax]"]
  | .i386, off =>
      ["    imul eax, 4", "    lea ebx, [ebp + " ++ toString off ++ "]", "    add eax, ebx",
       "    mov eax, DWORD PTR [eax]"]
  | .arm64, off =>
      ["    lsl x0, x0, #3", "    add x1, x29, #" ++ toString off, "    add x0, x0, x1",
       "    ldr x0, [x0]"]

/-- The line that saves the right operand of a binary expression. -/
def operand_push_line : Target → String
  | .i386 => "    push eax"
  | .amd64 => "    push rax"
  | .arm64 => "    str x0, [sp, #-16]!"

def is_comparison : BinaryOperator → Bool
  | .equal | .notEqual | .less | .greater | .lessEqual | .greaterEqual => true
  | _ => false

/-- The amd64 `cmp` + `setcc` + zero-extend sequence for a comparison. -/
def cmp_lines : BinaryOperator → List String
  | .equal => ["    cmp rax, rbx", "    sete al", "    movzx rax, al"]
  | .notEqual => ["    cmp rax, rbx", "    setne al", "    movzx rax, al"]
  | .less => ["    cmp rax, rbx", "    setl al", "    movzx rax, al"]
  | .greater => ["    cmp rax, rbx", "    setg al", "    movzx rax, al"]
  | .lessEqual => ["    cmp rax, rbx", "    setle al", "    movzx rax, al"]
  | .greaterEqual => ["    cmp rax, rbx", "    setge al", "    movzx rax, al"]
  | _ => []

/-- Outcome of lowering a comparison after both operands succeeded: only
amd64 emits code; i386 and arm64 reject the operator. -/
def cmp_result (t : Target) (st : CodeGenerator) (op : BinaryOperator) :
    Except AleccError CodeGenerator :=
  match t with
  | .amd64 => .ok (st.emit_lines ("    pop rbx" :: cmp_lines op))
  | .i386 =>
      .error (.codegenError ("Binary operator " ++ op.debugStr ++ " not implemented for i386"))
  | .arm64 =>
      .error (.codegenError ("Binary operator " ++ op.debugStr ++ " not implemented for arm64"))

/-- Parameter-slot load emitted for reading an identifier found in the
parameter table. -/
def param_load_lines : Target → Int → List String
  | .i386, off => ["    mov eax, DWORD PTR [ebp + " ++ toString off ++ "]"]
  | .amd64, off => ["    mov rax, QWORD PTR [rbp + " ++ toString off ++ "]"]
  | .arm64, off => ["    ldr x0, [x29, #" ++ toString off ++ "]"]

/-- Global-symbol store emitted by `store_in_target` for a name missing from
the local table. -/
def global_store_lines : Target → String → List String
  | .i386, name => ["    mov DWORD PTR [" ++ name ++ "], eax"]
  | .amd64, name => ["    mov QWORD PTR [" ++ name ++ "], rax"]
  | .arm64, name =>
      ["    adrp x1, " ++ name, "    add x1, x1, :lo12:" ++ name, "    str x0, [x1]"]

def is_inc_dec : UnaryOperator → Bool
  | .preIncrement | .postIncrement | .preDecrement | .postDecrement => true
  | _ => false

/-- The "can only be applied to variables" message of each step operator. -/
def inc_dec_var_msg : UnaryOperator → String
  | .preIncrement => "Pre-increment can only be applied to variables"
  | .postIncrement => "Post-increment can only be applied to variables"
  | .preDecrement => "Pre-decrement can only be applied to variables"
  | .postDecrement => "Post-decrement can only be applied to variables"
  | _ => ""

def is_identifier : Expression → Bool
  | .identifier _ => true
  | _ => false

def except_is_ok : Except AleccError CodeGenerator → Bool
  | .ok _ => true
  | .error _ => false

/-- Number of EOF tokens in a token list. -/
def eof_count (tokens : List Token) : Nat := tokens.countP (fun t => t.token_type.isEof)

/-- Whether the final token of a list is the EOF sentinel. -/
def last_is_eof (tokens : List Token) : Bool :=
  match tokens.getLast? with
  | some t => t.token_type.isEof
  | none => false

/-- The two-function program `int f() { return 0; } int main() { return f() + 1; }`:
its `main` evaluates a call as the left operand of `+` after the right operand
has been pushed. -/
def nested_call_func : CFunction :=
  ⟨"f", .int, [], .block [.returnStmt (some (.integerLiteral 0))], false, false, false, false⟩

def nested_call_main : CFunction :=
  ⟨"main", .int, [], .block [.returnStmt (some (.binary (.call (.identifier "f") [])
    .add (.integerLiteral 1)))], false, false, false, false⟩

def nested_call_program : Program := ⟨[nested_call_func, nested_call_main], [], []⟩

/-- The lines emitted for `main` in the nested-call program. -/
def nested_call_main_lines : List String :=
  [".globl main", "main:", "    push rbp", "    mov rbp, rsp", "    sub rsp, 16",
   "    mov rax, 1", "    push rax", "    call f", "    pop rbx", "    add rax, rbx",
   "    mov rsp, rbp", "    pop rbp", "    ret", ""]

/-- The full assembly emitted for the nested-call program. -/
def nested_call_program_lines : List String :=
  [".intel_syntax noprefix", "", ".section .text", ".globl f", "f:", "    push rbp",
   "    mov rbp, rsp", "    sub rsp, 16", "    mov rax, 0", "    mov rsp, rbp",
   "    pop rbp", "    ret", "", ".globl main", "main:", "    push rbp",
   "    mov rbp, rsp", "    sub rsp, 16", "    mov rax, 1", "    push rax", "    call f",
   "    pop rbx", "    add rax, rbx", "    mov rsp, rbp", "    pop rbp", "    ret", "",
   "", ".globl _start", "_start:", "    push rbp", "    mov rbp, rsp", "    sub rsp, 120",
   "    call main", "    mov rdi, rax", "    mov rax, 60", "    syscall"]

/-! ## Shared lemmas -/

theorem except_bind_ok {α β : Type} {x : Except AleccError α} {f : α → Except AleccError β}
    {b : β} (h : x >>= f = .ok b) : ∃ a, x = .ok a ∧ f a = .ok b := by
  cases x with
  | error e => simp [Bind.bind, Except.bind] at h
  | ok a => exact ⟨a, rfl, by simpa [Bind.bind, Except.bind] using h⟩

@[simp] theorem emit_lines_nil (st : CodeGenerator) : st.emit_lines [] = st := by
  cases st; simp [CodeGenerator.emit_lines]

@[simp] theorem emit_lines_emit_lines (st : CodeGenerator) (a b : List String) :
    (st.emit_lines a).emit_lines b = st.emit_lines (a ++ b) := by
  simp [CodeGenerator.emit_lines]

@[simp] theorem emit_lines_emit_line (st : CodeGenerator) (a : List String) (l : String) :
    (st.emit_lines a).emit_line l = st.emit_lines (a ++ [l]) := by
  simp [CodeGenerator.emit_lines, CodeGenerator.emit_line]

theorem emit_line_eq_lines (st : CodeGenerator) (l : String) :
    st.emit_line l = st.emit_lines [l] := rfl

@[simp] theorem target_emit_line (st : CodeGenerator) (l : String) :
    (st.emit_line l).target = st.target := rfl

@[simp] theorem target_emit_lines (st : CodeGenerator) (a : List String) :
    (st.emit_lines a).target = st.target := rfl

@[simp] theorem output_emit_lines (st : CodeGenerator) (a : List String) :
    (st.emit_lines a).output = st.output ++ a := rfl

/-! ## C7: the optimizer is the identity on every program at every level -/

/-- C7: for every program and every optimization level, `Optimizer::optimize`
returns `Ok` with the program unchanged; in particular any second run (at any
level) on the result is again the identity. -/
theorem optimizer_identity (level level2 : OptimizationLevel) (program : Program) :
    Optimizer.optimize level program = .ok program ∧
    Optimizer.optimize level2 program = .ok program :=
  ⟨by cases level <;> rfl, by cases level2 <;> rfl⟩

/-! ## C6: error display formats -/

/-- C6 (counterexample): a code-generation error renders as
`Code generation error: <message>` with no line/column position, so the five
kinds do not all print `<Kind> error at line L, column C: <message>`. -/
theorem codegen_error_has_no_position :
    (AleccError.codegenError "x").display = "Code generation error: x" ∧
    strStarts (AleccError.codegenError "x").display "Code generation error at line" = false ∧
    (AleccError.semanticError "x").display = "Semantic error: x" ∧
    (AleccError.linkerError "x").display = "Linker error: x" := by
  refine ⟨rfl, by decide, rfl, rfl⟩

/-- C6 (amended): only the Lexical and Parse kinds carry a position and
render as `<Kind> error at line L, column C: <message>`; the Semantic,
Code generation and Linker kinds render as `<Kind> error: <message>`. -/
theorem error_display_formats (line column : Nat) (message : String) :
    (AleccError.lexError line column message).display =
      "Lexical error at line " ++ toString line ++ ", column " ++ toString column ++ ": " ++
        message ∧
    (AleccError.parseError line column message).display =
      "Parse error at line " ++ toString line ++ ", column " ++ toString column ++ ": " ++
        message ∧
    (AleccError.semanticError message).display = "Semantic error: " ++ message ∧
    (AleccError.codegenError message).display = "Code generation error: " ++ message ∧
    (AleccError.linkerError message).display = "Linker error: " ++ message :=
  ⟨rfl, rfl, rfl, rfl, rfl⟩

/-! ## C2: functions with an empty block body -/

/-- C2 (counterexample): `int f() {}` — a function whose body is an empty
block — generates only `.extern f`: no `.globl`, no label, no prologue and no
`ret`. -/
theorem empty_body_no_prologue :
    generate_function (CodeGenerator.new .amd64)
      ⟨"f", .int, [], .block [], false, false, false, false⟩ =
      .ok ((CodeGenerator.new .amd64).emit_line ".extern f") ∧
    ((CodeGenerator.new .amd64).emit_line ".extern f").output = [".extern f"] ∧
    [".extern f"].contains ".globl f" = false ∧
    [".extern f"].contains "    ret" = false := by
  refine ⟨rfl, rfl, by decide, by decide⟩

/-- C2 (amended): a function whose body is an empty block is treated as a
forward declaration: code generation emits exactly the external reference
`.extern <name>` — no `.globl` directive, label, prologue or epilogue. -/
theorem forward_declaration_extern (st : CodeGenerator) (f : CFunction)
    (h : f.body = .block []) :
    generate_function st f = .ok (st.emit_line (".extern " ++ f.name)) := by
  simp [generate_function, is_empty_block, h]

/-- C2 (witness). -/
theorem forward_declaration_extern_witness :
    generate_function (CodeGenerator.new .i386)
      ⟨"g", .void, [], .block [], false, false, false, false⟩ =
      .ok ((CodeGenerator.new .i386).emit_line ".extern g") :=
  forward_declaration_extern (CodeGenerator.new .i386)
    ⟨"g", .void, [], .block [], false, false, false, false⟩ rfl

/-! ## C4: the `_start` entry stub -/

/-- C4 (counterexample): on the Arm64 target the emitted `_start` stub is
x86 Intel-syntax code (`push rbp`, …, `syscall`), not AArch64 assembly. -/
theorem arm64_start_stub_x86_dialect :
    (CodeGenerator.new .arm64).generate ⟨[], [], []⟩ =
      .ok [".arch armv8-a", "", ".section .text", "", ".globl _start", "_start:",
        "    push rbp", "    mov rbp, rsp", "    sub rsp, 120", "    call main",
        "    mov rdi, rax", "    mov rax, 60", "    syscall"] ∧
    [".arch armv8-a", "", ".section .text", "", ".globl _start", "_start:",
      "    push rbp", "    mov rbp, rsp", "    sub rsp, 120", "    call main",
      "    mov rdi, rax", "    mov rax, 60", "    syscall"].contains "    push rbp" = true ∧
    [".arch armv8-a", "", ".section .text", "", ".globl _start", "_start:",
      "    push rbp", "    mov rbp, rsp", "    sub rsp, 120", "    call main",
      "    mov rdi, rax", "    mov rax, 60", "    syscall"].contains
        "    stp x29, x30, [sp, #-16]!" = false := by
  refine ⟨rfl, by decide, by decide⟩

/-- C4 (amended): for every target and every program the generator accepts,
the output ends with the fixed `_start` stub `start_stub_lines` — a globally
visible `_start` that establishes a frame, calls `main`, moves the return
value into `rdi`, loads 60 into `rax` and issues `syscall`, written in amd64
Intel syntax irrespective of the selected target. -/
theorem start_stub_always_amd64_dialect (t : Target) (p : Program) (lines : List String)
    (h : (CodeGenerator.new t).generate p = .ok lines) :
    List.IsSuffix start_stub_lines lines := by
  unfold CodeGenerator.generate at h
  simp only [Bind.bind, Except.bind] at h
  split at h
  · exact absurd h (by simp)
  · rename_i a _
    simp only [Except.ok.injEq] at h
    subst h
    refine ⟨a.output, ?_⟩
    simp [CodeGenerator.generate_start_function, CodeGenerator.emit_line, start_stub_lines]

/-- C4 (witness). -/
theorem start_stub_always_amd64_dialect_witness :
    List.IsSuffix start_stub_lines
      [".arch armv8-a", "", ".section .text", "", ".globl _start", "_start:",
       "    push rbp", "    mov rbp, rsp", "    sub rsp, 120", "    call main",
       "    mov rdi, rax", "    mov rax, 60", "    syscall"] :=
  start_stub_always_amd64_dialect .arm64 ⟨[], [], []⟩
    [".arch armv8-a", "", ".section .text", "", ".globl _start", "_start:",
     "    push rbp", "    mov rbp, rsp", "    sub rsp, 120", "    call main",
     "    mov rdi, rax", "    mov rax, 60", "    syscall"] rfl

/-! ## C3: array-index element size -/

/-- C3 (counterexample): on i386 the emitted index computation scales by 4,
not by the claimed fixed 8. -/
theorem i386_index_scales_by_four :
    generate_expression
      { CodeGenerator.new .i386 with local_variables := [("a", -8)] }
      (.index (.identifier "a") (.integerLiteral 2)) =
      .ok ({ CodeGenerator.new .i386 with local_variables := [("a", -8)] }.emit_lines
        ["    mov eax, 2", "    imul eax, 4", "    lea ebx, [ebp + -8]", "    add eax, ebx",
         "    mov eax, DWORD PTR [eax]"]) ∧
    ["    mov eax, 2", "    imul eax, 4", "    lea ebx, [ebp + -8]", "    add eax, ebx",
     "    mov eax, DWORD PTR [eax]"].contains "    imul eax, 8" = false := by
  refine ⟨rfl, by decide⟩

/-- C3 (amended): indexing a named local array computes
`base + index * scale` and loads the word there, where the scale is the
fixed element size 8 on Amd64 (`imul rax, 8`) and Arm64 (`lsl x0, x0, #3`)
but 4 on I386 (`imul eax, 4`), regardless of the declared element type. -/
theorem index_scale_per_target (st st₁ : CodeGenerator) (name : String) (off : Int)
    (idx : Expression)
    (hloc : st.lookup_local name = some off)
    (hidx : generate_expression st idx = .ok st₁) :
    generate_expression st (.index (.identifier name) idx) =
      .ok (st₁.emit_lines (index_lines st₁.target off)) := by
  unfold generate_expression
  simp only [hloc, Bind.bind, Except.bind, hidx]
  cases st₁.target <;>
    simp [index_lines, CodeGenerator.emit_lines, CodeGenerator.emit_line]

/-- C9: reading a parameter loads its frame slot (the parameter table is
probed first), but storing through an assignment target probes only the
local-variable table and then falls back to a global-symbol store, so an
unshadowed parameter name is read from the frame yet written to a global. -/
theorem param_read_write_asymmetry (st st₂ : CodeGenerator) (name pname : String) (off : Int)
    (v : Expression)
    (hp : st.find_param name = some (pname, off))
    (hl : st.lookup_local name = none)
    (hv : generate_expression st v = .ok st₂)
    (hl₂ : st₂.lookup_local name = none) :
    generate_expression st (.identifier name) =
      .ok (st.emit_lines (param_load_lines st.target off)) ∧
    st.store_in_target (.identifier name) =
      .ok (st.emit_lines (global_store_lines st.target name)) ∧
    generate_expression st (.assignment (.identifier name) .assign v) =
      .ok (st₂.emit_lines (global_store_lines st₂.target name)) := by
  refine ⟨?_, ?_, ?_⟩
  · unfold generate_expression
    simp only [hp]
    cases st.target <;>
      simp [param_load_lines, CodeGenerator.emit_lines, CodeGenerator.emit_line]
  · unfold CodeGenerator.store_in_target
    simp only [hl]
    cases st.target <;>
      simp [global_store_lines, CodeGenerator.emit_lines, CodeGenerator.emit_line]
  · unfold generate_expression
    simp only [Bind.bind, Except.bind, hv]
    unfold CodeGenerator.store_in_target
    simp only [hl₂]
    cases st₂.target <;>
      simp [global_store_lines, CodeGenerator.emit_lines, CodeGenerator.emit_line]

/-- C9 (witness). -/
theorem param_read_write_asymmetry_witness :
    generate_expression ⟨.amd64, [], 0, [], [("p", -8)], false, [], 0, 0⟩
      (.identifier "p") =
      .ok ((⟨.amd64, [], 0, [], [("p", -8)], false, [], 0, 0⟩ : CodeGenerator).emit_lines
        (param_load_lines .amd64 (-8))) ∧
    CodeGenerator.store_in_target ⟨.amd64, [], 0, [], [("p", -8)], false, [], 0, 0⟩
      (.identifier "p") =
      .ok ((⟨.amd64, [], 0, [], [("p", -8)], false, [], 0, 0⟩ : CodeGenerator).emit_lines
        (global_store_lines .amd64 "p")) ∧
    generate_expression ⟨.amd64, [], 0, [], [("p", -8)], false, [], 0, 0⟩
      (.assignment (.identifier "p") .assign (.integerLiteral 1)) =
      .ok ((⟨.amd64, ["    mov rax, 1"], 0, [], [("p", -8)], false, [], 0, 0⟩ :
          CodeGenerator).emit_lines (global_store_lines .amd64 "p")) := by
  exact param_read_write_asymmetry _ _ "p" "p" (-8) (.integerLiteral 1) rfl rfl rfl rfl

/-- C10: pre/post increment and decrement lower only when the operand is an
identifier present in the local-variable table; an identifier that is not a
local (for instance a parameter or a global) yields the
`Undefined variable: <name>` code-generation error, and a non-identifier
operand yields the operator's "can only be applied to variables" error. -/
theorem incdec_requires_local (st stl : CodeGenerator) (name nm2 : String)
    (op : UnaryOperator) (e : Expression) (off : Int)
    (hop : is_inc_dec op = true)
    (hnone : st.lookup_local name = none)
    (hsome : stl.lookup_local nm2 = some off)
    (hne : is_identifier e = false) :
    generate_expression st (.unary op (.identifier name)) =
      .error (.codegenError ("Undefined variable: " ++ name)) ∧
    except_is_ok (generate_expression stl (.unary op (.identifier nm2))) = true ∧
    generate_expression st (.unary op e) = .error (.codegenError (inc_dec_var_msg op)) := by
  cases op <;>
    first
      | exact absurd hop (by decide)
      | exact ⟨by unfold generate_expression; simp [hnone],
          by unfold generate_expression
             simp only [hsome]
             cases stl.target <;> simp [except_is_ok],
          by cases e <;> simp_all [is_identifier, generate_expression, inc_dec_var_msg]⟩

/-- C10 (witness). -/
theorem incdec_requires_local_witness :
    generate_expression ⟨.amd64, [], 0, [], [], false, [], 0, 0⟩
      (.unary .preIncrement (.identifier "g")) =
      .error (.codegenError ("Undefined variable: " ++ "g")) ∧
    except_is_ok (generate_expression ⟨.amd64, [], 0, [], [], false, [("x", -8)], 0, 0⟩
      (.unary .preIncrement (.identifier "x"))) = true ∧
    generate_expression ⟨.amd64, [], 0, [], [], false, [], 0, 0⟩
      (.unary .preIncrement (.integerLiteral 3)) =
      .error (.codegenError (inc_dec_var_msg .preIncrement)) := by
  exact incdec_requires_local _ _ "g" "x" .preIncrement (.integerLiteral 3) (-8)
    rfl rfl rfl rfl

/-- C5 (counterexample): a comparison is rejected with a codegen error on
I386 and on Arm64 (so lowering does not succeed on all three targets, and
arm64 does not emit `cmp` + `cset`). -/
theorem i386_comparison_rejected :
    generate_expression (CodeGenerator.new .i386)
      (.binary (.integerLiteral 1) .equal (.integerLiteral 2)) =
      .error (.codegenError "Binary operator Equal not implemented for i386") ∧
    generate_expression (CodeGenerator.new .arm64)
      (.binary (.integerLiteral 1) .less (.integerLiteral 2)) =
      .error (.codegenError "Binary operator Less not implemented for arm64") :=
  ⟨rfl, rfl⟩

/-- C5 (amended): once both operands of a comparison lower successfully,
the binary expression lowers on Amd64 to `pop rbx` followed by `cmp` + the
matching `setcc` + a zero-extend into the accumulator, but on I386 and
Arm64 it is rejected with the `Binary operator … not implemented` error
(`cmp_result` describes all three outcomes). -/
theorem comparison_lowering_per_target (st st₁ st₂ : CodeGenerator) (l r : Expression)
    (op : BinaryOperator) (t : Target)
    (hop : is_comparison op = true)
    (hr : generate_expression st r = .ok st₁)
    (hl : generate_expression (st₁.emit_line (operand_push_line st₁.target)) l = .ok st₂)
    (ht : st₂.target = t) :
    generate_expression st (.binary l op r) = cmp_result t st₂ op := by
  obtain ⟨tgt, out, lc, sl, cfp, ee, lv, so, lcc⟩ := st₂
  subst ht
  unfold generate_expression
  simp only [Bind.bind, Except.bind, hr]
  have hpush : (match st₁.target with
      | Target.i386 => st₁.emit_line "    push eax"
      | Target.amd64 => st₁.emit_line "    push rax"
      | Target.arm64 => st₁.emit_line "    str x0, [sp, #-16]!") =
      st₁.emit_line (operand_push_line st₁.target) := by
    cases st₁.target <;> rfl
  rw [hpush, hl]
  cases tgt <;> cases op <;>
    simp_all [cmp_result, cmp_lines, is_comparison, BinaryOperator.debugStr,
      CodeGenerator.emit_lines, CodeGenerator.emit_line]

/-- C5 (witness). -/
theorem comparison_lowering_per_target_witness :
    generate_expression (CodeGenerator.new .amd64)
      (.binary (.integerLiteral 1) .equal (.integerLiteral 2)) =
      cmp_result .amd64
        ⟨.amd64, ["    mov rax, 2", "    push rax", "    mov rax, 1"], 0, [], [], false, [], 0, 0⟩
        .equal := by
  exact comparison_lowering_per_target (CodeGenerator.new .amd64)
    ((CodeGenerator.new .amd64).emit_line "    mov rax, 2")
    ⟨.amd64, ["    mov rax, 2", "    push rax", "    mov rax, 1"], 0, [], [], false, [], 0, 0⟩
    (.integerLiteral 1) (.integerLiteral 2) .equal .amd64 rfl rfl rfl rfl

/-- C3 (witness). -/
theorem index_scale_per_target_witness :
    generate_expression ⟨.amd64, [], 0, [], [], false, [("a", -16)], 0, 0⟩
      (.index (.identifier "a") (.integerLiteral 0)) =
      .ok ((⟨.amd64, ["    mov rax, 0"], 0, [], [], false, [("a", -16)], 0, 0⟩ :
          CodeGenerator).emit_lines (index_lines .amd64 (-16))) := by
  exact index_scale_per_target _ _ "a" (-16) (.integerLiteral 0) rfl rfl

/-! ## C8: lexer EOF discipline -/

theorem tail_len_le (l : List Char) : l.tail.length ≤ l.length := by
  cases l <;> simp

theorem match_char_snd_le (st : Lexer) (c : Char) :
    ((st.match_char c).2).input.length ≤ st.input.length := by
  unfold Lexer.match_char
  split
  · exact le_refl _
  · simpa [Lexer.advance_state] using tail_len_le st.input

theorem skip_whitespace_go_le (input : List Char) (line column : Nat) :
    (skip_whitespace_go input line column).1.length ≤ input.length := by
  induction input, line, column using skip_whitespace_go.induct <;>
    simp_all [skip_whitespace_go] <;> omega

theorem skip_line_comment_go_le (input : List Char) (line column : Nat) :
    (skip_line_comment_go input line column).1.length ≤ input.length := by
  induction input, line, column using skip_line_comment_go.induct <;>
    simp_all [skip_line_comment_go] <;> omega

theorem skip_block_comment_go_le (input : List Char) (line column : Nat)
    (r : List Char × Nat × Nat) (h : skip_block_comment_go input line column = .ok r) :
    r.1.length ≤ input.length := by
  induction input, line, column using skip_block_comment_go.induct generalizing r with
  | case1 line column => simp [skip_block_comment_go] at h
  | case2 c rest line column hc =>
    simp only [skip_block_comment_go, hc, if_true] at h
    cases h
    exact le_trans (tail_len_le rest) (by simp)
  | case3 c rest line column hc lc ih =>
    simp only [skip_block_comment_go, hc, if_false] at h
    exact le_trans (ih r h) (by simp)

theorem scan_string_go_le_aux :
    ∀ (n : Nat) (input : List Char) (line column : Nat) (value : String),
      input.length ≤ n →
      (scan_string_go input line column value).1.1.length ≤ input.length := by
  intro n
  induction n with
  | zero =>
    intro input line column value hlen
    cases input with
    | nil => simp [scan_string_go]
    | cons c rest => simp at hlen
  | succ n ih =>
    intro input line column value hlen
    cases input with
    | nil => simp [scan_string_go]
    | cons c rest =>
      simp only [scan_string_go]
      split
      · simp
      · split
        · cases rest with
          | nil => simp [scan_string_go]
          | cons c2 rest2 =>
            refine le_trans (ih rest2 _ _ _ ?_) ?_
            · simp at hlen; omega
            · simp only [List.length_cons]; omega
        · refine le_trans (ih rest _ _ _ ?_) ?_
          · simp at hlen; omega
          · simp

theorem scan_string_go_le (input : List Char) (line column : Nat) (value : String) :
    (scan_string_go input line column value).1.1.length ≤ input.length :=
  scan_string_go_le_aux input.length input line column value (le_refl _)

theorem scan_digits_go_le (input : List Char) (line column : Nat) (acc : String) :
    (scan_digits_go input line column acc).1.1.length ≤ input.length := by
  induction input, line, column, acc using scan_digits_go.induct <;>
    simp_all [scan_digits_go] <;> omega

theorem scan_ident_go_le (input : List Char) (line column : Nat) (acc : String) :
    (scan_ident_go input line column acc).1.1.length ≤ input.length := by
  induction input, line, column, acc using scan_ident_go.induct <;>
    simp_all [scan_ident_go] <;> omega

set_option maxHeartbeats 1000000 in
theorem keyword_lookup_not_eof (s : String) : (keyword_lookup s).isEof = false := by
  unfold keyword_lookup
  simp only [apply_ite TokenType.isEof]
  simp only [TokenType.isEof, ite_self]

theorem scan_string_spec (st : Lexer) (o : Option TokenType) (st' : Lexer)
    (h : st.scan_string = .ok (o, st')) :
    st'.input.length ≤ st.input.length ∧ ∀ tt, o = some tt → tt.isEof = false := by
  simp only [Lexer.scan_string] at h
  split at h
  · simp at h
  · simp only [Except.ok.injEq, Prod.mk.injEq] at h
    obtain ⟨ho, hst⟩ := h
    subst ho
    subst hst
    refine ⟨?_, ?_⟩
    · simpa [Lexer.advance_state] using
        le_trans (tail_len_le _) (scan_string_go_le st.input st.line st.column "")
    · intro tt htt
      cases htt
      rfl

theorem scan_char_spec (st : Lexer) (o : Option TokenType) (st' : Lexer)
    (h : st.scan_char = .ok (o, st')) :
    st'.input.length ≤ st.input.length ∧ ∀ tt, o = some tt → tt.isEof = false := by
  unfold Lexer.scan_char at h
  split at h
  · simp at h
  · split at h
    · dsimp only at h
      split at h
      · simp at h
      · split at h
        · simp at h
        · simp only [Except.ok.injEq, Prod.mk.injEq] at h
          obtain ⟨ho, hst⟩ := h
          subst ho
          subst hst
          refine ⟨?_, ?_⟩
          · simp only [Lexer.advance_state]
            exact le_trans (tail_len_le _) (le_trans (tail_len_le _) (tail_len_le _))
          · intro tt htt
            cases htt
            rfl
    · dsimp only at h
      split at h
      · simp at h
      · simp only [Except.ok.injEq, Prod.mk.injEq] at h
        obtain ⟨ho, hst⟩ := h
        subst ho
        subst hst
        refine ⟨?_, ?_⟩
        · simp only [Lexer.advance_state]
          exact le_trans (tail_len_le _) (tail_len_le _)
        · intro tt htt
          cases htt
          rfl

theorem scan_number_spec (first : Char) (st : Lexer) (o : Option TokenType) (st' : Lexer)
    (h : st.scan_number first = .ok (o, st')) :
    st'.input.length ≤ st.input.length ∧ ∀ tt, o = some tt → tt.isEof = false := by
  simp only [Lexer.scan_number] at h
  split at h
  · simp only [Except.ok.injEq, Prod.mk.injEq] at h
    obtain ⟨ho, hst⟩ := h
    subst ho
    subst hst
    refine ⟨?_, ?_⟩
    · refine le_trans (scan_digits_go_le _ _ _ _) ?_
      refine le_trans (tail_len_le _) ?_
      exact scan_digits_go_le st.input st.line st.column (String.singleton first)
    · intro tt htt
      cases htt
      rfl
  · split at h
    · simp only [Except.ok.injEq, Prod.mk.injEq] at h
      obtain ⟨ho, hst⟩ := h
      subst ho
      subst hst
      refine ⟨scan_digits_go_le st.input st.line st.column (String.singleton first), ?_⟩
      intro tt htt
      cases htt
      rfl
    · simp at h

theorem scan_identifier_spec (first : Char) (st : Lexer) (o : Option TokenType) (st' : Lexer)
    (h : st.scan_identifier first = .ok (o, st')) :
    st'.input.length ≤ st.input.length ∧ ∀ tt, o = some tt → tt.isEof = false := by
  simp only [Lexer.scan_identifier, Except.ok.injEq, Prod.mk.injEq] at h
  obtain ⟨ho, hst⟩ := h
  subst ho
  subst hst
  refine ⟨scan_ident_go_le st.input st.line st.column (String.singleton first), ?_⟩
  intro tt htt
  cases htt
  exact keyword_lookup_not_eof _



theorem scan_token_leaf (c : Char) (rest : List Char) (o : Option TokenType) (st' : Lexer)
    (tok : TokenType) (S : Lexer)
    (h : (Except.ok (some tok, S) : Except AleccError (Option TokenType × Lexer)) = .ok (o, st'))
    (hS : S.input.length ≤ rest.length) (htok : tok.isEof = false) :
    st'.input.length < (c :: rest).length ∧ ∀ tt, o = some tt → tt.isEof = false := by
  simp only [Except.ok.injEq, Prod.mk.injEq] at h
  obtain ⟨ho, hst⟩ := h
  subst ho
  subst hst
  exact ⟨by simp only [List.length_cons]; omega, fun tt htt => by cases htt; exact htok⟩

theorem scan_token_leaf_none (c : Char) (rest : List Char) (o : Option TokenType) (st' : Lexer)
    (S : Lexer)
    (h : (Except.ok (none, S) : Except AleccError (Option TokenType × Lexer)) = .ok (o, st'))
    (hS : S.input.length ≤ rest.length) :
    st'.input.length < (c :: rest).length ∧ ∀ tt, o = some tt → tt.isEof = false := by
  simp only [Except.ok.injEq, Prod.mk.injEq] at h
  obtain ⟨ho, hst⟩ := h
  subst ho
  subst hst
  exact ⟨by simp only [List.length_cons]; omega, fun tt htt => Option.noConfusion htt⟩

theorem scan_token_sub (c : Char) (rest : List Char) (o : Option TokenType) (st' : Lexer)
    (hs : st'.input.length ≤ rest.length) (hno : ∀ tt, o = some tt → tt.isEof = false) :
    st'.input.length < (c :: rest).length ∧ ∀ tt, o = some tt → tt.isEof = false :=
  ⟨by simp only [List.length_cons]; omega, hno⟩

set_option maxHeartbeats 4000000 in
theorem scan_token_spec (st0 : Lexer) (o : Option TokenType) (st' : Lexer)
    (hne : st0.input ≠ []) (h : st0.scan_token = .ok (o, st')) :
    st'.input.length < st0.input.length ∧ ∀ tt, o = some tt → tt.isEof = false := by
  obtain ⟨input, line, column⟩ := st0
  cases input with
  | nil => exact absurd rfl hne
  | cons c rest =>
    simp only [Lexer.scan_token, Lexer.advance, Lexer.advance_state, Lexer.current_char,
      List.headD, List.tail] at h
    by_cases hc1 : c = '+'
    · rw [if_pos hc1] at h
      repeat' split at h
      all_goals
        first
          | exact Except.noConfusion h
          | exact scan_token_leaf _ _ _ _ _ _ h (le_refl _) rfl
          | exact scan_token_leaf _ _ _ _ _ _ h (match_char_snd_le _ _) rfl
          | exact scan_token_leaf _ _ _ _ _ _ h
              (le_trans (match_char_snd_le _ _) (match_char_snd_le _ _)) rfl
    rw [if_neg hc1] at h
    by_cases hc2 : c = '-'
    · rw [if_pos hc2] at h
      repeat' split at h
      all_goals
        first
          | exact Except.noConfusion h
          | exact scan_token_leaf _ _ _ _ _ _ h (le_refl _) rfl
          | exact scan_token_leaf _ _ _ _ _ _ h (match_char_snd_le _ _) rfl
          | exact scan_token_leaf _ _ _ _ _ _ h
              (le_trans (match_char_snd_le _ _) (match_char_snd_le _ _)) rfl
    rw [if_neg hc2] at h
    by_cases hc3 : c = '*'
    · rw [if_pos hc3] at h
      repeat' split at h
      all_goals
        first
          | exact Except.noConfusion h
          | exact scan_token_leaf _ _ _ _ _ _ h (le_refl _) rfl
          | exact scan_token_leaf _ _ _ _ _ _ h (match_char_snd_le _ _) rfl
          | exact scan_token_leaf _ _ _ _ _ _ h
              (le_trans (match_char_snd_le _ _) (match_char_snd_le _ _)) rfl
    rw [if_neg hc3] at h
    by_cases hc4 : c = '/'
    · rw [if_pos hc4] at h
      repeat' split at h
      all_goals
        first
          | exact Except.noConfusion h
          | exact scan_token_leaf _ _ _ _ _ _ h (match_char_snd_le _ _) rfl
          | exact scan_token_leaf_none _ _ _ _ _ h
              (le_trans (skip_line_comment_go_le _ _ _) (match_char_snd_le _ _))
          | (rename_i r heq
             exact scan_token_leaf_none _ _ _ _ _ h
               (le_trans (skip_block_comment_go_le _ _ _ _ heq) (match_char_snd_le _ _)))
    rw [if_neg hc4] at h
    by_cases hc5 : c = '='
    · rw [if_pos hc5] at h
      repeat' split at h
      all_goals
        first
          | exact Except.noConfusion h
          | exact scan_token_leaf _ _ _ _ _ _ h (le_refl _) rfl
          | exact scan_token_leaf _ _ _ _ _ _ h (match_char_snd_le _ _) rfl
          | exact scan_token_leaf _ _ _ _ _ _ h
              (le_trans (match_char_snd_le _ _) (match_char_snd_le _ _)) rfl
    rw [if_neg hc5] at h
    by_cases hc6 : c = '!'
    · rw [if_pos hc6] at h
      repeat' split at h
      all_goals
        first
          | exact Except.noConfusion h
          | exact scan_token_leaf _ _ _ _ _ _ h (le_refl _) rfl
          | exact scan_token_leaf _ _ _ _ _ _ h (match_char_snd_le _ _) rfl
          | exact scan_token_leaf _ _ _ _ _ _ h
              (le_trans (match_char_snd_le _ _) (match_char_snd_le _ _)) rfl
    rw [if_neg hc6] at h
    by_cases hc7 : c = '<'
    · rw [if_pos hc7] at h
      repeat' split at h
      all_goals
        first
          | exact Except.noConfusion h
          | exact scan_token_leaf _ _ _ _ _ _ h (le_refl _) rfl
          | exact scan_token_leaf _ _ _ _ _ _ h (match_char_snd_le _ _) rfl
          | exact scan_token_leaf _ _ _ _ _ _ h
              (le_trans (match_char_snd_le _ _) (match_char_snd_le _ _)) rfl
    rw [if_neg hc7] at h
    by_cases hc8 : c = '>'
    · rw [if_pos hc8] at h
      repeat' split at h
      all_goals
        first
          | exact Except.noConfusion h
          | exact scan_token_leaf _ _ _ _ _ _ h (le_refl _) rfl
          | exact scan_token_leaf _ _ _ _ _ _ h (match_char_snd_le _ _) rfl
          | exact scan_token_leaf _ _ _ _ _ _ h
              (le_trans (match_char_snd_le _ _) (match_char_snd_le _ _)) rfl
    rw [if_neg hc8] at h
    by_cases hc9 : c = '&'
    · rw [if_pos hc9] at h
      repeat' split at h
      all_goals
        first
          | exact Except.noConfusion h
          | exact scan_token_leaf _ _ _ _ _ _ h (le_refl _) rfl
          | exact scan_token_leaf _ _ _ _ _ _ h (match_char_snd_le _ _) rfl
          | exact scan_token_leaf _ _ _ _ _ _ h
              (le_trans (match_char_snd_le _ _) (match_char_snd_le _ _)) rfl
    rw [if_neg hc9] at h
    by_cases hc10 : c = '|'
    · rw [if_pos hc10] at h
      repeat' split at h
      all_goals
        first
          | exact Except.noConfusion h
          | exact scan_token_leaf _ _ _ _ _ _ h (le_refl _) rfl
          | exact scan_token_leaf _ _ _ _ _ _ h (match_char_snd_le _ _) rfl
          | exact scan_token_leaf _ _ _ _ _ _ h
              (le_trans (match_char_snd_le _ _) (match_char_snd_le _ _)) rfl
    rw [if_neg hc10] at h
    by_cases hc11 : c = '^'
    · rw [if_pos hc11] at h
      repeat' split at h
      all_goals
        first
          | exact Except.noConfusion h
          | exact scan_token_leaf _ _ _ _ _ _ h (le_refl _) rfl
          | exact scan_token_leaf _ _ _ _ _ _ h (match_char_snd_le _ _) rfl
          | exact scan_token_leaf _ _ _ _ _ _ h
              (le_trans (match_char_snd_le _ _) (match_char_snd_le _ _)) rfl
    rw [if_neg hc11] at h
    by_cases hc12 : c = '~'
    · rw [if_pos hc12] at h
      repeat' split at h
      all_goals
        first
          | exact Except.noConfusion h
          | exact scan_token_leaf _ _ _ _ _ _ h (le_refl _) rfl
          | exact scan_token_leaf _ _ _ _ _ _ h (match_char_snd_le _ _) rfl
          | exact scan_token_leaf _ _ _ _ _ _ h
              (le_trans (match_char_snd_le _ _) (match_char_snd_le _ _)) rfl
    rw [if_neg hc12] at h
    by_cases hc13 : c = '%'
    · rw [if_pos hc13] at h
      repeat' split at h
      all_goals
        first
          | exact Except.noConfusion h
          | exact scan_token_leaf _ _ _ _ _ _ h (le_refl _) rfl
          | exact scan_token_leaf _ _ _ _ _ _ h (match_char_snd_le _ _) rfl
          | exact scan_token_leaf _ _ _ _ _ _ h
              (le_trans (match_char_snd_le _ _) (match_char_snd_le _ _)) rfl
    rw [if_neg hc13] at h
    by_cases hc14 : c = '('
    · rw [if_pos hc14] at h
      repeat' split at h
      all_goals
        first
          | exact Except.noConfusion h
          | exact scan_token_leaf _ _ _ _ _ _ h (le_refl _) rfl
          | exact scan_token_leaf _ _ _ _ _ _ h (match_char_snd_le _ _) rfl
          | exact scan_token_leaf _ _ _ _ _ _ h
              (le_trans (match_char_snd_le _ _) (match_char_snd_le _ _)) rfl
    rw [if_neg hc14] at h
    by_cases hc15 : c = ')'
    · rw [if_pos hc15] at h
      repeat' split at h
      all_goals
        first
          | exact Except.noConfusion h
          | exact scan_token_leaf _ _ _ _ _ _ h (le_refl _) rfl
          | exact scan_token_leaf _ _ _ _ _ _ h (match_char_snd_le _ _) rfl
          | exact scan_token_leaf _ _ _ _ _ _ h
              (le_trans (match_char_snd_le _ _) (match_char_snd_le _ _)) rfl
    rw [if_neg hc15] at h
    by_cases hc16 : c = '{'
    · rw [if_pos hc16] at h
      repeat' split at h
      all_goals
        first
          | exact Except.noConfusion h
          | exact scan_token_leaf _ _ _ _ _ _ h (le_refl _) rfl
          | exact scan_token_leaf _ _ _ _ _ _ h (match_char_snd_le _ _) rfl
          | exact scan_token_leaf _ _ _ _ _ _ h
              (le_trans (match_char_snd_le _ _) (match_char_snd_le _ _)) rfl
    rw [if_neg hc16] at h
    by_cases hc17 : c = '}'
    · rw [if_pos hc17] at h
      repeat' split at h
      all_goals
        first
          | exact Except.noConfusion h
          | exact scan_token_leaf _ _ _ _ _ _ h (le_refl _) rfl
          | exact scan_token_leaf _ _ _ _ _ _ h (match_char_snd_le _ _) rfl
          | exact scan_token_leaf _ _ _ _ _ _ h
              (le_trans (match_char_snd_le _ _) (match_char_snd_le _ _)) rfl
    rw [if_neg hc17] at h
    by_cases hc18 : c = '['
    · rw [if_pos hc18] at h
      repeat' split at h
      all_goals
        first
          | exact Except.noConfusion h
          | exact scan_token_leaf _ _ _ _ _ _ h (le_refl _) rfl
          | exact scan_token_leaf _ _ _ _ _ _ h (match_char_snd_le _ _) rfl
          | exact scan_token_leaf _ _ _ _ _ _ h
              (le_trans (match_char_snd_le _ _) (match_char_snd_le _ _)) rfl
    rw [if_neg hc18] at h
    by_cases hc19 : c = ']'
    · rw [if_pos hc19] at h
      repeat' split at h
      all_goals
        first
          | exact Except.noConfusion h
          | exact scan_token_leaf _ _ _ _ _ _ h (le_refl _) rfl
          | exact scan_token_leaf _ _ _ _ _ _ h (match_char_snd_le _ _) rfl
          | exact scan_token_leaf _ _ _ _ _ _ h
              (le_trans (match_char_snd_le _ _) (match_char_snd_le _ _)) rfl
    rw [if_neg hc19] at h
    by_cases hc20 : c = ';'
    · rw [if_pos hc20] at h
      repeat' split at h
      all_goals
        first
          | exact Except.noConfusion h
          | exact scan_token_leaf _ _ _ _ _ _ h (le_refl _) rfl
          | exact scan_token_leaf _ _ _ _ _ _ h (match_char_snd_le _ _) rfl
          | exact scan_token_leaf _ _ _ _ _ _ h
              (le_trans (match_char_snd_le _ _) (match_char_snd_le _ _)) rfl
    rw [if_neg hc20] at h
    by_cases hc21 : c = ','
    · rw [if_pos hc21] at h
      repeat' split at h
      all_goals
        first
          | exact Except.noConfusion h
          | exact scan_token_leaf _ _ _ _ _ _ h (le_refl _) rfl
          | exact scan_token_leaf _ _ _ _ _ _ h (match_char_snd_le _ _) rfl
          | exact scan_token_leaf _ _ _ _ _ _ h
              (le_trans (match_char_snd_le _ _) (match_char_snd_le _ _)) rfl
    rw [if_neg hc21] at h
    by_cases hc22 : c = '.'
    · rw [if_pos hc22] at h
      repeat' split at h
      all_goals
        first
          | exact Except.noConfusion h
          | exact scan_token_leaf _ _ _ _ _ _ h (le_refl _) rfl
          | exact scan_token_leaf _ _ _ _ _ _ h (match_char_snd_le _ _) rfl
          | exact scan_token_leaf _ _ _ _ _ _ h
              (le_trans (match_char_snd_le _ _) (match_char_snd_le _ _)) rfl
    rw [if_neg hc22] at h
    by_cases hc23 : c = '?'
    · rw [if_pos hc23] at h
      repeat' split at h
      all_goals
        first
          | exact Except.noConfusion h
          | exact scan_token_leaf _ _ _ _ _ _ h (le_refl _) rfl
          | exact scan_token_leaf _ _ _ _ _ _ h (match_char_snd_le _ _) rfl
          | exact scan_token_leaf _ _ _ _ _ _ h
              (le_trans (match_char_snd_le _ _) (match_char_snd_le _ _)) rfl
    rw [if_neg hc23] at h
    by_cases hc24 : c = ':'
    · rw [if_pos hc24] at h
      repeat' split at h
      all_goals
        first
          | exact Except.noConfusion h
          | exact scan_token_leaf _ _ _ _ _ _ h (le_refl _) rfl
          | exact scan_token_leaf _ _ _ _ _ _ h (match_char_snd_le _ _) rfl
          | exact scan_token_leaf _ _ _ _ _ _ h
              (le_trans (match_char_snd_le _ _) (match_char_snd_le _ _)) rfl
    rw [if_neg hc24] at h
    by_cases hc25 : c = '#'
    · rw [if_pos hc25] at h
      repeat' split at h
      all_goals
        first
          | exact Except.noConfusion h
          | exact scan_token_leaf _ _ _ _ _ _ h (le_refl _) rfl
          | exact scan_token_leaf _ _ _ _ _ _ h (match_char_snd_le _ _) rfl
          | exact scan_token_leaf _ _ _ _ _ _ h
              (le_trans (match_char_snd_le _ _) (match_char_snd_le _ _)) rfl
    rw [if_neg hc25] at h
    by_cases hc26 : c = '\n'
    · rw [if_pos hc26] at h
      repeat' split at h
      all_goals
        first
          | exact Except.noConfusion h
          | exact scan_token_leaf _ _ _ _ _ _ h (le_refl _) rfl
          | exact scan_token_leaf _ _ _ _ _ _ h (match_char_snd_le _ _) rfl
          | exact scan_token_leaf _ _ _ _ _ _ h
              (le_trans (match_char_snd_le _ _) (match_char_snd_le _ _)) rfl
    rw [if_neg hc26] at h
    by_cases hcq : c = dquoteChar
    · rw [if_pos hcq] at h
      exact scan_token_sub _ _ _ _ (scan_string_spec _ _ _ h).1 (scan_string_spec _ _ _ h).2
    rw [if_neg hcq] at h
    by_cases hcs : c = squoteChar
    · rw [if_pos hcs] at h
      exact scan_token_sub _ _ _ _ (scan_char_spec _ _ _ h).1 (scan_char_spec _ _ _ h).2
    rw [if_neg hcs] at h
    by_cases hcd : c.isDigit = true
    · rw [if_pos hcd] at h
      exact scan_token_sub _ _ _ _ (scan_number_spec _ _ _ _ h).1 (scan_number_spec _ _ _ _ h).2
    rw [if_neg hcd] at h
    by_cases hca : (c.isAlpha || c = '_') = true
    · rw [if_pos hca] at h
      exact scan_token_sub _ _ _ _ (scan_identifier_spec _ _ _ _ h).1 (scan_identifier_spec _ _ _ _ h).2
    rw [if_neg hca] at h
    exact Except.noConfusion h


theorem isEmpty_false_ne_nil {l : List Char} (h : ¬l.isEmpty = true) : l ≠ [] := by
  intro heq
  exact h (by simp [heq])

theorem skip_whitespace_le (st : Lexer) :
    (st.skip_whitespace).input.length ≤ st.input.length := by
  simpa [Lexer.skip_whitespace] using skip_whitespace_go_le st.input st.line st.column

theorem tokenize_go_fuel_stable :
    ∀ (fuel₁ fuel₂ : Nat) (st : Lexer) (tokens : List Token),
      st.input.length < fuel₁ → st.input.length < fuel₂ →
      tokenize_go fuel₁ st tokens = tokenize_go fuel₂ st tokens := by
  intro fuel₁
  induction fuel₁ with
  | zero =>
    intro fuel₂ st tokens h1 h2
    omega
  | succ f ih =>
    intro fuel₂ st tokens h1 h2
    cases fuel₂ with
    | zero => omega
    | succ f₂ =>
      simp only [tokenize_go]
      by_cases he : st.input.isEmpty = true
      · rw [if_pos he, if_pos he]
      · rw [if_neg he, if_neg he]
        by_cases he2 : (st.skip_whitespace).input.isEmpty = true
        · rw [if_pos he2, if_pos he2]
        · rw [if_neg he2, if_neg he2]
          cases hs : (st.skip_whitespace).scan_token with
          | error e => simp only [hs]
          | ok p =>
            obtain ⟨o, st2⟩ := p
            have hlt := (scan_token_spec _ _ _ (isEmpty_false_ne_nil he2) hs).1
            have hle := skip_whitespace_le st
            cases o with
            | some tt =>
              simp only [hs]
              exact ih f₂ st2 _ (by omega) (by omega)
            | none =>
              simp only [hs]
              exact ih f₂ st2 _ (by omega) (by omega)

theorem tokenize_go_not_eof :
    ∀ (fuel : Nat) (st : Lexer) (tokens : List Token) (st' : Lexer) (toks : List Token),
      tokenize_go fuel st tokens = .ok (st', toks) →
      (∀ t ∈ tokens, t.token_type.isEof = false) →
      ∀ t ∈ toks, t.token_type.isEof = false := by
  intro fuel
  induction fuel with
  | zero =>
    intro st tokens st' toks h hall
    simp only [tokenize_go, Except.ok.injEq, Prod.mk.injEq] at h
    obtain ⟨-, h2⟩ := h
    subst h2
    exact hall
  | succ f ih =>
    intro st tokens st' toks h hall
    simp only [tokenize_go] at h
    split at h
    · simp only [Except.ok.injEq, Prod.mk.injEq] at h
      obtain ⟨-, h2⟩ := h
      subst h2
      exact hall
    · split at h
      · simp only [Except.ok.injEq, Prod.mk.injEq] at h
        obtain ⟨-, h2⟩ := h
        subst h2
        exact hall
      · split at h
        · exact Except.noConfusion h
        · rename_i hne2 x tt st2 heq
          refine ih st2 _ st' toks h ?_
          intro t ht
          rcases List.mem_append.mp ht with hmem | hmem
          · exact hall t hmem
          · have hno := (scan_token_spec _ _ _ (isEmpty_false_ne_nil hne2) heq).2
            simp only [List.mem_singleton] at hmem
            subst hmem
            exact hno tt rfl
        · rename_i hne2 x st2 heq
          exact ih st2 _ st' toks h hall

/-- C8: every successful `tokenize` run returns a nonempty token vector
whose last element is the EOF sentinel and which contains no other EOF
token. -/
theorem tokenize_single_eof (input : String) (tokens : List Token)
    (h : (Lexer.new input).tokenize = .ok tokens) :
    tokens ≠ [] ∧ last_is_eof tokens = true ∧ eof_count tokens = 1 := by
  unfold Lexer.tokenize at h
  split at h
  · exact Except.noConfusion h
  · rename_i st' toks heq
    simp only [Except.ok.injEq] at h
    subst h
    have hall := tokenize_go_not_eof _ _ _ _ _ heq (by intro t ht; simp at ht)
    refine ⟨by simp, ?_, ?_⟩
    · simp [last_is_eof, List.getLast?_concat, TokenType.isEof]
    · have h0 : toks.countP (fun t => t.token_type.isEof) = 0 :=
        List.countP_eq_zero.mpr (fun t ht => by simp [hall t ht])
      simp only [eof_count, List.countP_append, h0]
      rfl

/-- C8 (witness). -/
theorem tokenize_single_eof_witness :
    ([⟨.integerLiteral 42, 1, 1, 2⟩, ⟨.eof, 1, 3, 0⟩] : List Token) ≠ [] ∧
    last_is_eof [⟨.integerLiteral 42, 1, 1, 2⟩, ⟨.eof, 1, 3, 0⟩] = true ∧
    eof_count [⟨.integerLiteral 42, 1, 1, 2⟩, ⟨.eof, 1, 3, 0⟩] = 1 :=
  tokenize_single_eof "42" [⟨.integerLiteral 42, 1, 1, 2⟩, ⟨.eof, 1, 3, 0⟩] rfl

/-! ## C1: amd64 call-site stack alignment -/

theorem param_registers_amd64_length : param_registers_amd64.length = 6 := rfl

theorem gen_int_lit (st : CodeGenerator) (v : Int) (hT : st.target = .amd64) :
    generate_expression st (.integerLiteral v) = .ok (st.emit_line (lit_line v)) := by
  unfold generate_expression
  rw [hT]
  rfl

theorem gen_stack_args_lit (v : Int) :
    ∀ (m i : Nat) (st : CodeGenerator), st.target = .amd64 →
      gen_stack_args_amd64 st (List.replicate m (.integerLiteral v)) i =
        .ok (st.emit_lines (stack_lines_from v m i)) := by
  intro m
  induction m with
  | zero => intro i st hT; simp [gen_stack_args_amd64, stack_lines_from]
  | succ m ih =>
    intro i st hT
    simp only [List.replicate_succ, gen_stack_args_amd64, Bind.bind, Except.bind,
      ih (i + 1) st hT]
    simp only [stack_lines_from, param_registers_amd64_length]
    by_cases hi : i ≥ 6
    · rw [if_pos hi, if_pos hi]
      rw [gen_int_lit _ v (by simp [hT])]
      simp [Bind.bind, Except.bind, List.append_assoc]
    · rw [if_neg hi, if_neg hi]
      simp

theorem gen_reg_args_lit (v : Int) :
    ∀ (m i : Nat) (st : CodeGenerator), st.target = .amd64 →
      gen_reg_args_amd64 st (List.replicate m (.integerLiteral v)) i =
        .ok (st.emit_lines (reg_lines_from v m i)) := by
  intro m
  induction m with
  | zero => intro i st hT; simp [gen_reg_args_amd64, reg_lines_from]
  | succ m ih =>
    intro i st hT
    simp only [List.replicate_succ, gen_reg_args_amd64, Bind.bind, Except.bind,
      ih (i + 1) st hT]
    simp only [reg_lines_from, param_registers_amd64_length]
    by_cases hi : i < 6
    · rw [if_pos hi, if_pos hi]
      rw [gen_int_lit _ v (by simp [hT])]
      simp [Bind.bind, Except.bind, List.append_assoc]
    · rw [if_neg hi, if_neg hi]
      simp

theorem delta_fold_append (d : Int) (xs ys : List String) :
    delta_fold d (xs ++ ys) = delta_fold (delta_fold d xs) ys := by
  induction xs generalizing d with
  | nil => rfl
  | cons l ls ih =>
    simp only [List.cons_append, delta_fold]
    exact ih _

theorem calls_aligned_append (d : Int) (xs ys : List String) :
    calls_aligned d (xs ++ ys) =
      (calls_aligned d xs && calls_aligned (delta_fold d xs) ys) := by
  induction xs generalizing d with
  | nil => simp [calls_aligned, delta_fold]
  | cons l ls ih =>
    simp only [List.cons_append, calls_aligned, delta_fold, call_transfer_step,
      List.append_eq]
    split
    · rw [ih]
      simp [Bool.and_assoc]
    · exact ih _

theorem stack_lines_spec (v : Int) :
    ∀ (m i : Nat) (d : Int),
      calls_aligned d (stack_lines_from v m i) = true ∧
      delta_fold d (stack_lines_from v m i) = d + 8 * push_count m i := by
  intro m
  induction m with
  | zero => intro i d; simp [stack_lines_from, calls_aligned, delta_fold, push_count]
  | succ m ih =>
    intro i d
    have c1 : strStarts (lit_line v) "    call " = false := rfl
    have c2 : ∀ e : Int, rsp_delta_step e (lit_line v) = e := fun _ => rfl
    have c3 : strStarts "    push rax" "    call " = false := rfl
    have c4 : ∀ e : Int, rsp_delta_step e "    push rax" = e + 8 := fun _ => rfl
    simp only [stack_lines_from, push_count, calls_aligned_append, delta_fold_append,
      (ih (i + 1) d).1, (ih (i + 1) d).2, Bool.true_and]
    by_cases hi : i ≥ 6
    · rw [if_pos hi, if_pos hi]
      refine ⟨?_, ?_⟩
      · simp [calls_aligned, call_transfer_step, c1, c3]
      · have e1 : delta_fold (d + 8 * (push_count m (i + 1) : Int))
            [lit_line v, "    push rax"] = d + 8 * (push_count m (i + 1) : Int) + 8 := by
          simp [delta_fold, call_transfer_step, c1, c2, c3, c4]
        rw [e1]
        push_cast
        ring
    · rw [if_neg hi, if_neg hi]
      simp [calls_aligned, delta_fold]

theorem reg_lines_spec (v : Int) :
    ∀ (m i : Nat) (d : Int),
      calls_aligned d (reg_lines_from v m i) = true ∧
      delta_fold d (reg_lines_from v m i) = d := by
  intro m
  induction m with
  | zero => intro i d; simp [reg_lines_from, calls_aligned, delta_fold]
  | succ m ih =>
    intro i d
    have c1 : strStarts (lit_line v) "    call " = false := rfl
    have c2 : ∀ e : Int, rsp_delta_step e (lit_line v) = e := fun _ => rfl
    simp only [reg_lines_from, calls_aligned_append, delta_fold_append,
      (ih (i + 1) d).1, (ih (i + 1) d).2, Bool.true_and]
    by_cases hi : i < 6
    · refine ⟨?_, ?_⟩
      · interval_cases i <;> rfl
      · interval_cases i <;> rfl
    · rw [if_neg hi]
      simp [calls_aligned, delta_fold]

theorem push_count_eq : ∀ (m i : Nat), push_count m i = i + m - max i 6 := by
  intro m
  induction m with
  | zero => intro i; simp only [push_count]; omega
  | succ m ih =>
    intro i
    simp only [push_count, ih (i + 1)]
    split <;> omega

theorem stack_arg_count_eq (n : Nat) : stack_arg_count n = n - 6 := by
  unfold stack_arg_count; split <;> omega

theorem pad_needed_iff (n : Nat) :
    pad_needed n = true ↔ stack_arg_count n * 8 % 16 = 8 := by
  simp only [pad_needed, Bool.and_eq_true, decide_eq_true_eq, ne_eq]
  omega

theorem cleanup_amount_eq (n : Nat) :
    cleanup_amount n = stack_arg_count n * 8 + (if pad_needed n then 8 else 0) := by
  by_cases hp : pad_needed n = true
  · have h8 := (pad_needed_iff n).mp hp
    rw [if_pos hp]
    simp only [cleanup_amount]
    rw [if_pos (by omega : stack_arg_count n > 0),
      if_pos (by omega : (stack_arg_count n * 8 / 8) % 2 ≠ 0)]
    omega
  · rw [if_neg hp]
    simp only [cleanup_amount]
    have h8 : ¬stack_arg_count n * 8 % 16 = 8 := fun hh => hp ((pad_needed_iff n).mpr hh)
    by_cases h0 : stack_arg_count n > 0
    · rw [if_pos h0, if_neg (by omega : ¬(stack_arg_count n * 8 / 8) % 2 ≠ 0)]
      omega
    · rw [if_neg h0]
      omega

theorem pad_line_aligned : ∀ e : Int,
    calls_aligned e ["    sub rsp, 8  # Stack alignment"] = true := fun _ => rfl

theorem pad_line_delta : ∀ e : Int,
    delta_fold e ["    sub rsp, 8  # Stack alignment"] = e + 8 := fun _ => rfl

theorem call_line_delta : ∀ e : Int, delta_fold e ["    call f"] = e := fun _ => rfl

theorem call_line_aligned : ∀ e : Int,
    calls_aligned e ["    call f"] = ((e % 16 == 8) && true) := fun _ => rfl

theorem cleanup_line_aligned : ∀ (e : Int) (s : String),
    calls_aligned e ["    add rsp, " ++ s] = true := fun _ _ => rfl

theorem call_lit_lines_aligned (n : Nat) (v : Int) (d : Int) (hd : d % 16 = 8) :
    calls_aligned d (call_lit_lines n v) = true := by
  have hpc : push_count n 0 = n - 6 := by rw [push_count_eq]; omega
  have hsc := stack_arg_count_eq n
  have hsA := fun e => (stack_lines_spec v n 0 e).1
  have hsD := fun e => (stack_lines_spec v n 0 e).2
  have hrA := fun e => (reg_lines_spec v n 0 e).1
  have hrD := fun e => (reg_lines_spec v n 0 e).2
  by_cases hp : pad_needed n = true
  · have h8 := (pad_needed_iff n).mp hp
    have hc0 : cleanup_amount n > 0 := by rw [cleanup_amount_eq n, if_pos hp]; omega
    rw [call_lit_lines, if_pos hp, if_pos hc0]
    simp only [calls_aligned_append, delta_fold_append, pad_line_aligned, pad_line_delta,
      call_line_delta, call_line_aligned, cleanup_line_aligned, hsA, hsD, hrA, hrD,
      Bool.true_and, Bool.and_true]
    have : (d + 8 + 8 * (push_count n 0 : Int)) % 16 = 8 := by
      rw [hpc]
      omega
    simp [this]
  · rw [call_lit_lines, if_neg hp]
    have h8 : ¬stack_arg_count n * 8 % 16 = 8 := fun hh => hp ((pad_needed_iff n).mpr hh)
    have hkey : (d + 8 * (push_count n 0 : Int)) % 16 = 8 := by
      rw [hpc]
      omega
    by_cases hc0 : cleanup_amount n > 0
    · rw [if_pos hc0]
      simp only [List.nil_append, calls_aligned_append, delta_fold_append,
        call_line_delta, call_line_aligned, cleanup_line_aligned, hsA, hsD, hrA, hrD,
        Bool.true_and, Bool.and_true]
      simp [hkey]
    · rw [if_neg hc0]
      simp only [List.nil_append, List.append_nil, calls_aligned_append, delta_fold_append,
        call_line_delta, call_line_aligned, hsA, hsD, hrA, hrD,
        Bool.true_and, Bool.and_true]
      simp [hkey]

theorem last_emit_lines (st : CodeGenerator) (a : List String) :
    (st.emit_lines a).last_call_stack_cleanup = st.last_call_stack_cleanup := rfl

theorem gen_call_lit (n : Nat) (v : Int) (st : CodeGenerator) (hT : st.target = .amd64) :
    generate_expression st (call_lit n v) =
      .ok { st.emit_lines (call_lit_lines n v) with
            last_call_stack_cleanup := cleanup_amount n } := by
  have hstr : "    call " ++ "f" = "    call f" := rfl
  unfold call_lit generate_expression
  rw [hT]
  simp only [List.length_replicate, param_registers_amd64_length]
  by_cases h6 : n > 6
  · rw [if_pos h6, if_pos (show n - 6 > 0 by omega)]
    by_cases hodd : (n - 6) * 8 / 8 % 2 ≠ 0
    · have hpad : pad_needed n = true := by
        apply (pad_needed_iff n).mpr
        rw [stack_arg_count_eq]
        omega
      have hcl : cleanup_amount n = 8 + (n - 6) * 8 := by
        rw [cleanup_amount_eq, stack_arg_count_eq, if_pos hpad]
        omega
      rw [if_pos hodd]
      have e1 := gen_stack_args_lit v n 0
        (st.emit_lines ["    sub rsp, 8  # Stack alignment"]) (by simp [hT])
      have e2 := gen_reg_args_lit v n 0
        (st.emit_lines (["    sub rsp, 8  # Stack alignment"] ++ stack_lines_from v n 0))
        (by simp [hT])
      simp only [Bind.bind, Except.bind, emit_line_eq_lines, emit_lines_emit_lines,
        e1, e2, hstr, target_emit_lines, last_emit_lines, hT]
      rw [if_pos (show 8 + (n - 6) * 8 > 0 by omega)]
      rw [call_lit_lines, if_pos hpad, hcl, if_pos (show 8 + (n - 6) * 8 > 0 by omega)]
      simp [CodeGenerator.emit_lines, CodeGenerator.emit_line]
    · have hpad : ¬pad_needed n = true := by
        intro h
        have h8 := (pad_needed_iff n).mp h
        rw [stack_arg_count_eq] at h8
        omega
      have hcl : cleanup_amount n = (n - 6) * 8 := by
        rw [cleanup_amount_eq, stack_arg_count_eq, if_neg hpad]
        omega
      rw [if_neg hodd]
      have e1 := gen_stack_args_lit v n 0 st hT
      have e2 := gen_reg_args_lit v n 0 (st.emit_lines (stack_lines_from v n 0))
        (by simp [hT])
      simp only [Bind.bind, Except.bind, emit_line_eq_lines, emit_lines_emit_lines,
        e1, e2, hstr, target_emit_lines, last_emit_lines, hT]
      rw [if_pos (show (n - 6) * 8 > 0 by omega)]
      rw [call_lit_lines, if_neg hpad, hcl, if_pos (show (n - 6) * 8 > 0 by omega)]
      simp [CodeGenerator.emit_lines, CodeGenerator.emit_line]
  · have hpad : ¬pad_needed n = true := by
      intro h
      have h8 := (pad_needed_iff n).mp h
      rw [stack_arg_count_eq] at h8
      omega
    have hcl : cleanup_amount n = 0 := by
      rw [cleanup_amount_eq, stack_arg_count_eq, if_neg hpad]
      omega
    rw [if_neg h6, if_neg (show ¬(0 : Nat) > 0 by omega)]
    have e1 := gen_stack_args_lit v n 0 st hT
    have e2 := gen_reg_args_lit v n 0 (st.emit_lines (stack_lines_from v n 0))
      (by simp [hT])
    simp only [Bind.bind, Except.bind, emit_line_eq_lines, emit_lines_emit_lines,
      e1, e2, hstr, target_emit_lines, last_emit_lines, hT]
    rw [if_neg (show ¬(0 : Nat) > 0 by omega)]
    rw [call_lit_lines, if_neg hpad, hcl, if_neg (show ¬(0 : Nat) > 0 by omega)]
    simp [CodeGenerator.emit_lines, CodeGenerator.emit_line]
/-- C1 (counterexample): the accepted program
`int f() { return 0; } int main() { return f() + 1; }` code-generates
successfully on amd64, yet inside `main` the emitted `call f` happens with
32 bytes pushed since function entry (8 for `push rbp`, 16 for the prologue
`sub rsp, 16`, 8 for the binary-operand `push rax`), and `32 % 16 ≠ 8`, so
the stack is not 16-byte aligned at that call instruction. -/
theorem amd64_call_misaligned_nested :
    CodeGenerator.generate (CodeGenerator.new .amd64) nested_call_program =
      .ok nested_call_program_lines ∧
    generate_function (CodeGenerator.new .amd64) nested_call_main =
      .ok { CodeGenerator.new .amd64 with
            output := nested_call_main_lines, epilogue_emitted := true } ∧
    calls_aligned 0 nested_call_main_lines = false :=
  ⟨rfl, rfl, rfl⟩

/-- C1 (amended): the per-call bookkeeping of the amd64 `Call` branch is as
claimed - for a call with `n` integer-literal arguments the emitter inserts
the extra 8-byte pad exactly when the pushed-argument byte count modulo 16
equals 8, includes the pad in the recorded post-call cleanup, and the emitted
call sequence itself, entered with the stack 16-byte aligned
(`d % 16 = 8` bytes below function entry), has the stack aligned at its
`call` instruction - but the alignment invariant does not extend to every
call site of every accepted program (see `amd64_call_misaligned_nested`:
a call in a binary-operand position executes after an odd number of pushed
words). -/
theorem amd64_call_stack_alignment (n : Nat) (v : Int) (st : CodeGenerator) (d : Int)
    (hT : st.target = .amd64) (hd : d % 16 = 8) :
    generate_expression st (call_lit n v) =
      .ok { st.emit_lines (call_lit_lines n v) with
            last_call_stack_cleanup := cleanup_amount n } ∧
    (pad_needed n = true ↔ stack_arg_count n * 8 % 16 = 8) ∧
    cleanup_amount n = stack_arg_count n * 8 + (if pad_needed n then 8 else 0) ∧
    calls_aligned d (call_lit_lines n v) = true :=
  ⟨gen_call_lit n v st hT, pad_needed_iff n, cleanup_amount_eq n,
   call_lit_lines_aligned n v d hd⟩

/-- The alignment theorem `amd64_call_stack_alignment` applied to a
7-argument call from an aligned entry state. -/
theorem amd64_call_stack_alignment_witness :
    (CodeGenerator.new Target.amd64).target = Target.amd64 ∧ (8 : Int) % 16 = 8 ∧
    (generate_expression (CodeGenerator.new Target.amd64) (call_lit 7 1) =
      .ok { (CodeGenerator.new Target.amd64).emit_lines (call_lit_lines 7 1) with
            last_call_stack_cleanup := cleanup_amount 7 } ∧
     (pad_needed 7 = true ↔ stack_arg_count 7 * 8 % 16 = 8) ∧
     cleanup_amount 7 = stack_arg_count 7 * 8 + (if pad_needed 7 then 8 else 0) ∧
     calls_aligned 8 (call_lit_lines 7 1) = true) :=
  ⟨rfl, by decide,
   amd64_call_stack_alignment 7 1 (CodeGenerator.new Target.amd64) 8 rfl (by decide)⟩

end Alecc
